import Mathlib

/-!
Verification development for the kidscope backend (ocr.py, report.py, app.py).

The Python handlers are shallowly embedded: Python values flowing through the
handlers (parsed JSON, pandas cells) become the inductive type `Json` / `Cell`,
Python exceptions become `Except String`, machine floats are modelled as exact
rationals, and the external OpenAI / LangChain calls are modelled as oracle
parameters carrying either the reply text or a raised exception.
-/

set_option maxRecDepth 4000

/-! Python string helpers. -/

/-- Python `pat in s` substring test. -/
def strContains (s pat : String) : Bool :=
  (List.range (s.toList.length + 1)).any (fun i => pat.toList.isPrefixOf (s.toList.drop i))

/-- Python `s.split(c, 1)`: the part before the first occurrence of `c` and the
part after it (`(s, "")` when `c` does not occur; callers guard on occurrence). -/
def splitOnceChar (s : String) (c : Char) : String × String :=
  match s.toList.findIdx? (· == c) with
  | some i => (String.mk (s.toList.take i), String.mk (s.toList.drop (i + 1)))
  | none => (s, "")

/-- Python whitespace for `str.strip`. -/
def isPyWs (c : Char) : Bool :=
  c == ' ' || c == '\t' || c == '\n' || c == '\r' || c == '\x0b' || c == '\x0c'

/-- Python `s.strip()` (kernel-reducible replacement for `String.trim`). -/
def pyTrim (s : String) : String :=
  String.mk (((s.toList.dropWhile isPyWs).reverse.dropWhile isPyWs).reverse)

def charLower (c : Char) : Char :=
  if 'A' ≤ c ∧ c ≤ 'Z' then Char.ofNat (c.toNat + 32) else c

/-- Python `s.lower()` (ASCII range; every compared heading is ASCII). -/
def pyLower (s : String) : String :=
  String.mk (s.toList.map charLower)

def pyStartsWith (s pre : String) : Bool :=
  pre.toList.isPrefixOf s.toList

def pyEndsWith (s suf : String) : Bool :=
  suf.toList.reverse.isPrefixOf s.toList.reverse

def splitChar (sep : Char) : List Char → List (List Char)
  | [] => [[]]
  | c :: rest =>
    match splitChar sep rest with
    | [] => [[]]
    | h :: t => if c = sep then [] :: h :: t else (c :: h) :: t

/-- Python `s.split(sep)` for a one-character separator. -/
def pySplit (s : String) (sep : Char) : List String :=
  (splitChar sep s.toList).map String.mk

def replaceFuel : Nat → List Char → List Char → List Char → List Char
  | 0, cs, _, _ => cs
  | _ + 1, [], _, _ => []
  | f + 1, c :: rest, pat, rep =>
    if pat ≠ [] ∧ pat.isPrefixOf (c :: rest) then
      rep ++ replaceFuel f ((c :: rest).drop pat.length) pat rep
    else c :: replaceFuel f rest pat rep

/-- Python `s.replace(pat, rep)` for a non-empty pattern (left-to-right,
non-overlapping), kernel-reducible replacement for `String.replace`. -/
def pyReplace (s pat rep : String) : String :=
  String.mk (replaceFuel s.toList.length s.toList pat.toList rep.toList)

def digitsToNat (l : List Char) : Nat :=
  l.foldl (fun acc c => acc * 10 + (c.toNat - '0'.toNat)) 0

/-- Python `int(str)`: strip whitespace, optional sign, decimal digits. -/
def parseIntPy (s : String) : Option Int :=
  let t := (pyTrim s).toList
  let signed : Int × List Char :=
    match t with
    | '+' :: r => (1, r)
    | '-' :: r => (-1, r)
    | r => (1, r)
  if signed.2 ≠ [] ∧ signed.2.all Char.isDigit then
    some (signed.1 * (digitsToNat signed.2 : Int))
  else
    none

/-- Python `float(str)` restricted to plain decimal literals (no exponents),
which is the only shape the GPA field takes in this code base. -/
def parseFloatPy (s : String) : Option ℚ :=
  let t := pyTrim s
  let signed : ℚ × String :=
    match t.toList with
    | '+' :: r => (1, String.mk r)
    | '-' :: r => (-1, String.mk r)
    | _ => (1, t)
  match pySplit signed.2 '.' with
  | [a] =>
    if a ≠ "" ∧ a.toList.all Char.isDigit then some (signed.1 * (digitsToNat a.toList : ℚ))
    else none
  | [a, b] =>
    if (a ≠ "" ∨ b ≠ "") ∧ a.toList.all Char.isDigit ∧ b.toList.all Char.isDigit then
      some (signed.1 * ((digitsToNat a.toList : ℚ) +
        (digitsToNat b.toList : ℚ) / (10 ^ b.length : ℕ)))
    else none
  | _ => none

/-- Python `int()` applied to a float: truncation toward zero. -/
def ratTrunc (q : ℚ) : Int :=
  Int.tdiv q.num q.den

/-- Rounding half to even at integer precision, the tie behaviour of Python's
builtin `round` (floats are modelled as exact rationals throughout). -/
def halfEvenRound (x : ℚ) : Int :=
  let f := ⌊x⌋
  let r := x - f
  if r < 1 / 2 then f
  else if 1 / 2 < r then f + 1
  else if f % 2 = 0 then f else f + 1

/-- Python `round(x, 2)`. -/
def round2 (x : ℚ) : ℚ :=
  (halfEvenRound (x * 100) : ℚ) / 100

/-! Python / JSON values. -/

/-- Values produced by `json.loads` and flowing through the handlers. Numbers
are exact rationals (ints and floats are not distinguished beyond their
value, which matches every use in this code base). -/
inductive Json where
  | null
  | bool (b : Bool)
  | num (q : ℚ)
  | str (s : String)
  | arr (elems : List Json)
  | obj (fields : List (String × Json))

/-- Lookup in a Python dict held as an insertion-ordered association list. -/
def getKV : List (String × Json) → String → Option Json
  | [], _ => none
  | (k, v) :: rest, key => if k = key then some v else getKV rest key

def hasKeyKV (kvs : List (String × Json)) (key : String) : Bool :=
  (getKV kvs key).isSome

/-- Python dict assignment: update in place when the key exists (keeping its
position), otherwise append, exactly as CPython dicts behave. -/
def setKV : List (String × Json) → String → Json → List (String × Json)
  | [], key, v => [(key, v)]
  | (k, w) :: rest, key, v =>
    if k = key then (k, v) :: rest else (k, w) :: setKV rest key v

def objGet (j : Json) (key : String) : Option Json :=
  match j with
  | .obj kvs => getKV kvs key
  | _ => none

def objSet (j : Json) (key : String) (v : Json) : Json :=
  match j with
  | .obj kvs => .obj (setKV kvs key v)
  | _ => j

/-- Python `d.get(key, default)` on a value known to be a dict. -/
def jGetD (j : Json) (key : String) (d : Json) : Json :=
  (objGet j key).getD d

/-- Python truthiness of a decoded JSON value. -/
def jsonTruthy : Json → Bool
  | .null => false
  | .bool b => b
  | .num q => if q = 0 then false else true
  | .str s => if s = "" then false else true
  | .arr l => !l.isEmpty
  | .obj kvs => !kvs.isEmpty

/-- Python `j == "lit"` for a string literal. -/
def jsonEqStr (j : Json) (lit : String) : Bool :=
  match j with
  | .str s => s = lit
  | _ => false

/-- Rendering of a rational the way Python prints the underlying int/float
(exact only when the denominator is a power of ten, which covers every number
this code base prints). -/
def numRepr (q : ℚ) : String :=
  if q.den = 1 then toString q.num
  else
    match (List.range 13).find? (fun k => q.den ∣ 10 ^ k) with
    | some k =>
      let scaled : Int := q.num * ((10 ^ k) / (q.den : Int))
      let a := scaled.natAbs
      let intPart := a / 10 ^ k
      let fracPart := a % 10 ^ k
      let fracDigits := toString fracPart
      let padded := String.mk (List.replicate (k - fracDigits.length) '0') ++ fracDigits
      (if scaled < 0 then "-" else "") ++ toString intPart ++ "." ++ padded
    | none => toString q.num ++ "/" ++ toString q.den

mutual
/-- Python `repr` of a decoded JSON value (quote-escaping corners elided; only
used to build prompt text that no claim inspects). -/
def pyRepr : Json → String
  | .null => "None"
  | .bool true => "True"
  | .bool false => "False"
  | .num q => numRepr q
  | .str s => "'" ++ s ++ "'"
  | .arr l => "[" ++ pyReprList l ++ "]"
  | .obj kvs => "\x7b" ++ pyReprFields kvs ++ "\x7d"

def pyReprList : List Json → String
  | [] => ""
  | [x] => pyRepr x
  | x :: xs => pyRepr x ++ ", " ++ pyReprList xs

def pyReprFields : List (String × Json) → String
  | [] => ""
  | [(k, v)] => "'" ++ k ++ "': " ++ pyRepr v
  | (k, v) :: rest => "'" ++ k ++ "': " ++ pyRepr v ++ ", " ++ pyReprFields rest
end

/-- Python `str()` of a decoded JSON value. -/
def pyStr : Json → String
  | .str s => s
  | j => pyRepr j

/-- Python `int()` of a decoded JSON value (`none` models the raise; note that
`bool` is an `int` subclass in Python). -/
def pyIntJ : Json → Option Int
  | .num q => some (ratTrunc q)
  | .str s => parseIntPy s
  | .bool b => some (if b then 1 else 0)
  | _ => none

/-- Python `float()` of a decoded JSON value (`none` models the raise). -/
def pyFloatJ : Json → Option ℚ
  | .num q => some q
  | .str s => parseFloatPy s
  | .bool b => some (if b then 1 else 0)
  | _ => none

/-- Python iteration `for x in j`: lists yield elements, strings yield
one-character strings, dicts yield their keys, anything else raises. -/
def pyIter : Json → Except String (List Json)
  | .arr l => .ok l
  | .str s => .ok (s.toList.map (fun c => .str (String.mk [c])))
  | .obj kvs => .ok (kvs.map (fun kv => .str kv.1))
  | _ => .error "TypeError: object is not iterable"

/-! Small sanity lemmas for the dict model, shared by the endpoint proofs. -/

theorem getKV_setKV_same (kvs : List (String × Json)) (k : String) (v : Json) :
    getKV (setKV kvs k v) k = some v := by
  induction kvs with
  | nil => simp [setKV, getKV]
  | cons hd tl ih =>
    by_cases h : hd.1 = k
    · simp [setKV, getKV, h]
    · simp [setKV, getKV, h, ih]

theorem getKV_setKV_diff (kvs : List (String × Json)) (k k' : String) (v : Json)
    (h : k' ≠ k) : getKV (setKV kvs k v) k' = getKV kvs k' := by
  induction kvs with
  | nil => simp [setKV, getKV, Ne.symm h]
  | cons hd tl ih =>
    by_cases hk : hd.1 = k
    · subst hk
      simp only [setKV, if_pos rfl, getKV]
      have : ¬ hd.1 = k' := fun hh => h (hh.symm)
      simp [this]
    · simp only [setKV, if_neg hk, getKV]
      by_cases hk' : hd.1 = k'
      · simp [hk']
      · simp [hk', ih]

theorem objGet_objSet_same (j : Json) (kvs : List (String × Json)) (k : String) (v : Json)
    (h : j = .obj kvs) : objGet (objSet j k v) k = some v := by
  subst h
  simp [objGet, objSet, getKV_setKV_same]

theorem objGet_objSet_diff (j : Json) (kvs : List (String × Json)) (k k' : String) (v : Json)
    (h : j = .obj kvs) (hne : k' ≠ k) : objGet (objSet j k v) k' = objGet j k' := by
  subst h
  simp [objGet, objSet, getKV_setKV_diff _ _ _ _ hne]

/-! Model of Python `json.loads`, as a fuel-based recursive-descent parser.
Fuel is bounded by the input length, which suffices since every recursive
step consumes at least one character. -/

def jpSkipWs : List Char → List Char
  | c :: rest =>
    if c = ' ' ∨ c = '\n' ∨ c = '\t' ∨ c = '\r' then jpSkipWs rest else c :: rest
  | [] => []

def jpString (fuel : Nat) (cs : List Char) (acc : List Char) :
    Option (String × List Char) :=
  match fuel, cs with
  | 0, _ => none
  | _, [] => none
  | f + 1, c :: rest =>
    if c = '"' then some (String.mk acc.reverse, rest)
    else if c = '\\' then
      match rest with
      | e :: rest' =>
        let dec : Option Char :=
          if e = 'n' then some '\n'
          else if e = 't' then some '\t'
          else if e = 'r' then some '\r'
          else if e = '"' then some '"'
          else if e = '\\' then some '\\'
          else if e = '/' then some '/'
          else if e = 'b' then some (Char.ofNat 8)
          else if e = 'f' then some (Char.ofNat 12)
          else none
        match dec with
        | some ch => jpString f rest' (ch :: acc)
        | none => none
      | [] => none
    else jpString f rest (c :: acc)

/-- Numeric literal: optional sign, digits, optional fraction, optional
exponent, evaluated exactly as a rational. -/
def jpNumber (cs : List Char) : Option (ℚ × List Char) :=
  let (neg, cs1) : Bool × List Char :=
    match cs with
    | '-' :: r => (true, r)
    | _ => (false, cs)
  let intDigits := cs1.takeWhile Char.isDigit
  let cs2 := cs1.dropWhile Char.isDigit
  if intDigits = [] then none
  else
    let (fracDigits, cs3) : List Char × List Char :=
      match cs2 with
      | '.' :: r => (r.takeWhile Char.isDigit, r.dropWhile Char.isDigit)
      | _ => ([], cs2)
    if cs2 ≠ [] ∧ cs2.head? = some '.' ∧ fracDigits = [] then none
    else
      let (expo, cs4) : Option Int × List Char :=
        match cs3 with
        | 'e' :: r | 'E' :: r =>
          let (esign, r1) : Int × List Char :=
            match r with
            | '+' :: rr => (1, rr)
            | '-' :: rr => (-1, rr)
            | _ => (1, r)
          let eDigits := r1.takeWhile Char.isDigit
          if eDigits = [] then (none, cs3)
          else (some (esign * (digitsToNat eDigits : Int)), r1.dropWhile Char.isDigit)
        | _ => (none, cs3)
      let base : ℚ := (digitsToNat intDigits : ℚ) +
        (digitsToNat fracDigits : ℚ) / (10 ^ fracDigits.length : ℕ)
      let scaled : ℚ :=
        match expo with
        | some e => if e ≥ 0 then base * 10 ^ e.toNat else base / 10 ^ (-e).toNat
        | none => base
      some ((if neg then -scaled else scaled), cs4)

/-- Parser modes: a plain value, the tail of an array after `[`, or the tail
of an object after an opening brace (accumulators carry elements seen so far). -/
inductive JPMode where
  | value
  | arrElems (acc : List Json)
  | objElems (acc : List (String × Json))

def jpRun : Nat → JPMode → List Char → Option (Json × List Char)
  | 0, _, _ => none
  | f + 1, .value, cs0 =>
    let cs := jpSkipWs cs0
    if "true".toList.isPrefixOf cs then some (.bool true, cs.drop 4)
    else if "false".toList.isPrefixOf cs then some (.bool false, cs.drop 5)
    else if "null".toList.isPrefixOf cs then some (.null, cs.drop 4)
    else
      match cs with
      | [] => none
      | c :: rest =>
        if c = '"' then
          match jpString (rest.length + 1) rest [] with
          | some (s, r) => some (.str s, r)
          | none => none
        else if c = '\x7b' then
          match jpSkipWs rest with
          | '\x7d' :: r2 => some (.obj [], r2)
          | r1 => jpRun f (.objElems []) r1
        else if c = '[' then
          match jpSkipWs rest with
          | ']' :: r2 => some (.arr [], r2)
          | r1 => jpRun f (.arrElems []) r1
        else
          match jpNumber cs with
          | some (q, r) => some (.num q, r)
          | none => none
  | f + 1, .arrElems acc, cs =>
    match jpRun f .value cs with
    | none => none
    | some (v, r) =>
      match jpSkipWs r with
      | ',' :: r2 => jpRun f (.arrElems (v :: acc)) r2
      | ']' :: r2 => some (.arr (v :: acc).reverse, r2)
      | _ => none
  | f + 1, .objElems acc, cs =>
    match jpSkipWs cs with
    | '"' :: r =>
      match jpString (r.length + 1) r [] with
      | none => none
      | some (k, r1) =>
        match jpSkipWs r1 with
        | ':' :: r2 =>
          match jpRun f .value r2 with
          | none => none
          | some (v, r3) =>
            match jpSkipWs r3 with
            | ',' :: r4 => jpRun f (.objElems (setKV acc k v)) r4
            | '\x7d' :: r4 => some (.obj (setKV acc k v), r4)
            | _ => none
        | _ => none
    | _ => none

/-- Model of `json.loads`: parse one value and require only whitespace after
it (duplicate object keys overwrite, as in CPython). -/
def jsonParse (s : String) : Option Json :=
  match jpRun (s.toList.length + 16) .value s.toList with
  | some (v, rest) => if jpSkipWs rest = [] then some v else none
  | none => none

/-- Source `ocr.py` `clean_json_response`: greedy `\x7b.*\x7d` regex with
DOTALL (first opening brace through last closing brace), then `json.loads`,
retrying with newlines and tabs replaced by spaces. -/
def cleanJsonResponse (text : String) : Option Json :=
  let cs := text.toList
  match cs.findIdx? (· == '\x7b') with
  | none => none
  | some i =>
    match (cs.reverse.findIdx? (· == '\x7d')) with
    | none => none
    | some jr =>
      let j := cs.length - 1 - jr
      if i < j then
        let sub := String.mk ((cs.drop i).take (j + 1 - i))
        match jsonParse sub with
        | some v => some v
        | none =>
          jsonParse (pyReplace (pyReplace sub "\n" " ") "\t" " ")
      else none

example : jsonParse "\x7b\"a\": 1, \"b\": [true, null, \"x\"]\x7d" =
    some (.obj [("a", .num 1), ("b", .arr [.bool true, .null, .str "x"])]) := by
  with_unfolding_all rfl

example : jsonParse "\x7b\"answer\": \"ok\", \"questions\": \"abcdefghij\"\x7d" =
    some (.obj [("answer", .str "ok"), ("questions", .str "abcdefghij")]) := by rfl

example : jsonParse "  -2.5 " = some (.num (-5/2)) := by with_unfolding_all rfl

example : jsonParse "\x7b\"subjects\": [5]\x7d" =
    some (.obj [("subjects", .arr [.num 5])]) := by with_unfolding_all rfl

/-! Embedding of `ocr.py`. -/

/-- Source `GRADE_TO_MARKS` table. -/
def GRADE_TO_MARKS : List (String × Int) :=
  [("A+", 95), ("A", 85), ("B+", 75), ("B", 65), ("C+", 55),
   ("C", 45), ("D+", 35), ("D", 25), ("E", 15), ("F", 0)]

def gradeToMarks (g : String) : Option Int :=
  (GRADE_TO_MARKS.find? (fun p => p.1 == g)).map (·.2)

/-- Source `gpa_to_grade` (thresholds modelled as exact decimals). -/
def gpa_to_grade (gpa : Json) : String :=
  if (match gpa with | .null => true | _ => false) || jsonEqStr gpa "N/A" then "N/A"
  else
    match pyFloatJ gpa with
    | none => "N/A"
    | some g =>
      if g ≥ 36 / 10 then "A"
      else if g ≥ 32 / 10 then "B+"
      else if g ≥ 28 / 10 then "B"
      else if g ≥ 24 / 10 then "C+"
      else if g ≥ 2 then "C"
      else if g ≥ 16 / 10 then "D+"
      else if g ≥ 12 / 10 then "D"
      else "E"

/-- Cells of a pandas row: a string or a numeric value. -/
inductive Cell where
  | s (v : String)
  | n (q : ℚ)

/-- One spreadsheet row as seen by `extract_data_from_excel`; `none` models a
missing column, so `row.get` returns its default. -/
structure Row where
  subject : Option Cell
  marksObtained : Option Cell
  totalMarks : Option Cell

def pyStrCell : Cell → String
  | .s v => v
  | .n q => numRepr q

/-- Python `int(cell)` (`none` models the raise). -/
def cellInt : Cell → Option Int
  | .n q => some (ratTrunc q)
  | .s v => parseIntPy v

/-- Body of the per-row loop of `extract_data_from_excel`: the produced
subject dict together with its contributions to the two running totals. -/
def excelRow (row : Row) : Except String (Json × Int × Int) :=
  let subjectName := pyStrCell (row.subject.getD (.s "N/A"))
  let obtained0 := row.marksObtained.getD (.s "N/A")
  let obtained1 : Cell :=
    match obtained0 with
    | .s v =>
      match gradeToMarks v with
      | some m => .n (m : ℚ)
      | none => obtained0
    | _ => obtained0
  let maximum : Int :=
    match cellInt (row.totalMarks.getD (.n 100)) with
    | some n => n
    | none => 100
  let obtained2 : Cell :=
    match obtained1 with
    | .s v => if v = "N/A" then .n 0 else obtained1
    | _ => obtained1
  let mk : Int → Json × Int × Int := fun o =>
    (.obj [("subject_name", .str subjectName), ("theory_marks", .num (o : ℚ)),
      ("total_marks", .num (maximum : ℚ)), ("grade", .str "N/A")], o, maximum)
  match obtained2 with
  | .n q => .ok (mk (ratTrunc q))
  | .s v =>
    match parseIntPy v with
    | some o => .ok (mk o)
    | none => .error ("invalid literal for int() with base 10: '" ++ v ++ "'")

/-- The row loop of `extract_data_from_excel`, accumulating the subject list
and the obtained/total sums. -/
def excelScan : List Row → Except String (List Json × Int × Int)
  | [] => .ok ([], 0, 0)
  | row :: rest =>
    match excelRow row with
    | .error e => .error e
    | .ok (j, o, m) =>
      match excelScan rest with
      | .error e => .error e
      | .ok (l, ob, tm) => .ok (j :: l, o + ob, m + tm)

/-- Source `extract_data_from_excel`: the argument carries the pandas parse
outcome for the uploaded bytes; any exception is caught and turned into an
error dict by the function's blanket `except`. -/
def extract_data_from_excel (input : Except String (List Row)) : Json :=
  match input with
  | .error e => .obj [("error", .str ("Excel parsing error: " ++ e))]
  | .ok rows =>
    match excelScan rows with
    | .error e => .obj [("error", .str ("Excel parsing error: " ++ e))]
    | .ok (subs, ob, tm) =>
      let pct : Option ℚ :=
        if tm ≠ 0 then some (round2 ((ob : ℚ) / (tm : ℚ) * 100)) else none
      .obj [("student_name", .str "N/A"), ("roll_number", .str "N/A"),
        ("registration_number", .str "N/A"), ("class_grade", .str "N/A"),
        ("section", .str "N/A"), ("academic_year", .str "N/A"),
        ("exam_name", .str "N/A"), ("school_name", .str "N/A"),
        ("subjects", .arr subs), ("obtained_marks", .num (ob : ℚ)),
        ("total_marks", .num (tm : ℚ)),
        ("percentage", match pct with | some q => .num q | none => .str "N/A"),
        ("overall_grade", .str "N/A"),
        ("pass_fail", .str (match pct with
          | some q => if q ≥ 40 then "Pass" else "Fail"
          | none => "Fail")),
        ("remarks", .str "N/A"), ("other_info", .str "Extracted from Excel/CSV")]

/-- Python membership in the literal list `[None, "", "N/A"]` (also the list
`["N/A", None, ""]`, membership being order-independent). -/
def inNAList : Json → Bool
  | .null => true
  | .str s => (s == "") || (s == "N/A")
  | _ => false

/-- The grade/theory reconciliation step of the subject-normalisation loop
(`theory` after lines 232-238 of ocr.py). Raises when an unhashable grade is
used as a dict key. -/
def theoryStep (theory0 grade : Json) : Except String Json :=
  let naBranch : Except String Json :=
    match grade with
    | .arr _ => .error "TypeError: unhashable type: 'list'"
    | .obj _ => .error "TypeError: unhashable type: 'dict'"
    | .str g => .ok (.num (((gradeToMarks g).getD 0 : Int) : ℚ))
    | _ => .ok (.num 0)
  match theory0 with
  | .str v =>
    match gradeToMarks v with
    | some m => .ok (.num (m : ℚ))
    | none => if inNAList theory0 then naBranch else .ok theory0
  | _ => if inNAList theory0 then naBranch else .ok theory0

/-- `obtained_val = int(theory) if isinstance(theory, (int, float)) else 0`
(`bool` is an `int` subclass in Python). -/
def intOfTheory : Json → Int
  | .num q => ratTrunc q
  | .bool b => if b then 1 else 0
  | _ => 0

/-- `try: maximum = int(maximum) except: maximum = 100`. -/
def intOfMax (maximum0 : Json) : Int :=
  match pyIntJ maximum0 with
  | some n => n
  | none => 100

/-- Body of the subject-normalisation loop of `extract_marksheet`: the
normalised subject dict plus its contributions to the totals. Raises on a
non-dict subject (`subj.get`). -/
def normalizeSubj (subj : Json) : Except String (Json × Int × Int) :=
  match subj with
  | .obj _ =>
    match theoryStep (jGetD subj "theory_marks" (.str "N/A"))
        (jGetD subj "grade" (.str "N/A")) with
    | .error e => .error e
    | .ok theory1 =>
      let maximum := intOfMax (jGetD subj "total_marks" (.num 100))
      let obtained := intOfTheory theory1
      .ok (.obj [("subject_name", jGetD subj "subject_name" (.str "Unknown")),
          ("marks_obtained", .num (obtained : ℚ)), ("theory_marks", .num (obtained : ℚ)),
          ("total_marks", .num (maximum : ℚ)), ("grade", jGetD subj "grade" (.str "N/A"))],
        obtained, maximum)
  | _ => .error "AttributeError: object has no attribute get"

/-- The subject loop of `extract_marksheet`, accumulating the normalised
subjects and the obtained/total sums. -/
def normScan : List Json → Except String (List Json × Int × Int)
  | [] => .ok ([], 0, 0)
  | s :: rest =>
    match normalizeSubj s with
    | .error e => .error e
    | .ok (j, o, m) =>
      match normScan rest with
      | .error e => .error e
      | .ok (l, ob, tm) => .ok (j :: l, o + ob, m + tm)

/-- Mutations applied to the per-page dict after the subject loop (lines
258-298 of ocr.py): replace the subjects, set totals/percentage/pass-fail
when the summed maxima are positive, map GPA to an overall grade, tag
`source_type` and normalise `session`. -/
def pageAssemble (cleaned : Json) (ns : List Json) (ob tm : Int) : Json :=
  let c1 := objSet cleaned "subjects" (.arr ns)
  let c2 :=
    if tm > 0 then
      let pct := round2 ((ob : ℚ) / (tm : ℚ) * 100)
      objSet (objSet (objSet (objSet c1 "obtained_marks" (.num (ob : ℚ)))
        "total_marks" (.num (tm : ℚ))) "percentage" (.num pct))
        "pass_fail" (.str (if pct ≥ 40 then "Pass" else "Fail"))
    else c1
  let otherInfo := jGetD c2 "other_info" (.str "")
  let gpaValue : Json :=
    match otherInfo with
    | .obj kvs => if hasKeyKV kvs "GPA" then (getKV kvs "GPA").getD .null else .null
    | .str s =>
      if strContains s "GPA" then .str (pyTrim ((pySplit s ':').getLastD s)) else .null
    | _ => .null
  let c3 :=
    if jsonTruthy gpaValue then objSet c2 "overall_grade" (.str (gpa_to_grade gpaValue))
    else c2
  let anyGrade := ns.any (fun s => !(inNAList (jGetD s "grade" .null)))
  let st1 := if anyGrade then "grade" else "marks"
  let gpaDict :=
    match jGetD c3 "other_info" .null with
    | .obj kvs => hasKeyKV kvs "GPA"
    | _ => false
  let st2 := if gpaDict then "gpa" else st1
  let c4 := objSet c3 "source_type" (.str st2)
  let av := jGetD c4 "academic_year" .null
  let sv := if jsonTruthy av then av else jGetD c4 "session" .null
  let c5 := if jsonTruthy sv then objSet c4 "session" (.str (pyStr sv)) else c4
  c5

/-- Per-page normalisation of `extract_marksheet` (lines 220-298 of ocr.py):
subject normalisation followed by the dict mutations. The appended page
record aliases the mutated dict, so the returned value is the dict after all
mutations. -/
def processPage (cleaned : Json) : Except String Json :=
  match cleaned with
  | .obj _ =>
    match pyIter (jGetD cleaned "subjects" (.arr [])) with
    | .error e => .error e
    | .ok items =>
      match normScan items with
      | .error e => .error e
      | .ok (ns, ob, tm) => .ok (pageAssemble cleaned ns ob tm)
  | _ => .error "AttributeError: object has no attribute get"

/-- An uploaded file, modelled by its name and by the outcome each decoder
would produce on its bytes: the pandas rows, the pdf2image pages (each page
carrying the outcome of its vision-model call), or the PIL image (carrying
the outcome of its vision-model call). -/
structure UploadedFile where
  filename : String
  excelData : Except String (List Row)
  pdfPages : Except String (List (Except String String))
  imageOpen : Except String (Except String String)

def isSpreadsheetName (f : String) : Bool :=
  pyEndsWith (pyLower f) ".xls" || pyEndsWith (pyLower f) ".xlsx" || pyEndsWith (pyLower f) ".csv"

def isPdfName (f : String) : Bool :=
  pyEndsWith (pyLower f) ".pdf"

/-- HTTP response: status code and JSON body. -/
structure HResponse where
  status : Nat
  body : Json

def errObj (msg : String) : Json := .obj [("error", .str msg)]

/-- The per-page loop of `extract_marksheet`: pages whose reply is empty or
fails JSON recovery are skipped; a raise from the vision call or from the
normalisation escapes (there is no `try` around this loop in the source). -/
def visionPagesFrom (i : Nat) : List (Except String String) → Except String (List Json)
  | [] => .ok []
  | p :: rest =>
    match p with
    | .error e => .error e
    | .ok raw =>
      let here : Except String (List Json) :=
        if raw ≠ "" then
          match cleanJsonResponse raw with
          | some cleaned =>
            if jsonTruthy cleaned then
              match processPage cleaned with
              | .error e => .error e
              | .ok pg => .ok [.obj [("page", .num ((i : ℚ) + 1)), ("data", pg)]]
            else .ok []
          | none => .ok []
        else .ok []
      match here with
      | .error e => .error e
      | .ok hs =>
        match visionPagesFrom (i + 1) rest with
        | .error e => .error e
        | .ok rs => .ok (hs ++ rs)

/-- Source route `extract_marksheet`. A top-level `.error` models an
exception that escapes the handler uncaught. -/
def extract_marksheet (req : Option UploadedFile) : Except String HResponse :=
  match req with
  | none => .ok ⟨400, errObj "No file uploaded"⟩
  | some f =>
    if f.filename = "" then .ok ⟨400, errObj "No file selected"⟩
    else if isSpreadsheetName f.filename then
      let data := extract_data_from_excel f.excelData
      .ok ⟨200, .obj [("filename", .str f.filename), ("pages_processed", .num 1),
        ("results", .arr [.obj [("page", .num 1), ("data", data)]])]⟩
    else if isPdfName f.filename then
      match f.pdfPages with
      | .error e => .error e
      | .ok pages =>
        match visionPagesFrom 0 pages with
        | .error e => .error e
        | .ok results =>
          .ok ⟨200, .obj [("filename", .str f.filename),
            ("pages_processed", .num (pages.length : ℚ)), ("results", .arr results)]⟩
    else
      match f.imageOpen with
      | .error e => .ok ⟨500, errObj ("Image error: " ++ e)⟩
      | .ok page =>
        match visionPagesFrom 0 [page] with
        | .error e => .error e
        | .ok results =>
          .ok ⟨200, .obj [("filename", .str f.filename), ("pages_processed", .num 1),
            ("results", .arr results)]⟩

/-! Embedding of `report.py`: zodiac lookup and the report-section parser. -/

/-- Source `ZODIAC_SIGNS`: sign name with inclusive (month, day) range. -/
def ZODIAC_SIGNS : List (String × (Nat × Nat) × (Nat × Nat)) :=
  [("Capricorn", (1, 1), (1, 19)), ("Aquarius", (1, 20), (2, 18)),
   ("Pisces", (2, 19), (3, 20)), ("Aries", (3, 21), (4, 19)),
   ("Taurus", (4, 20), (5, 20)), ("Gemini", (5, 21), (6, 20)),
   ("Cancer", (6, 21), (7, 22)), ("Leo", (7, 23), (8, 22)),
   ("Virgo", (8, 23), (9, 22)), ("Libra", (9, 23), (10, 22)),
   ("Scorpio", (10, 23), (11, 21)), ("Sagittarius", (11, 22), (12, 21)),
   ("Capricorn", (12, 22), (12, 31))]

/-- Source `FAMOUS_ZODIACS`. -/
def FAMOUS_ZODIACS : List (String × List String) :=
  [("Aries", ["Ajay Devgn", "Kapil Sharma", "Dr. A.P.J. Abdul Kalam", "Emraan Hashmi", "Robert Downey Jr."]),
   ("Taurus", ["Sachin Tendulkar", "Anushka Sharma", "G. D. Naidu", "Madhuri Dixit", "David Beckham"]),
   ("Gemini", ["Sonam Kapoor", "Shilpa Shetty", "Karan Johar", "Dr. B. R. Ambedkar", "Angelina Jolie"]),
   ("Cancer", ["Priyanka Chopra", "MS Dhoni", "Ranveer Singh", "J. R. D. Tata", "Ariana Grande"]),
   ("Leo", ["Saif Ali Khan", "Sridevi", "Jacqueline Fernandez", "Bal Gangadhar Tilak", "Barack Obama"]),
   ("Virgo", ["Akshay Kumar", "Kareena Kapoor", "Narendra Modi", "Verghese Kurien", "Michael Jackson"]),
   ("Libra", ["Amitabh Bachchan", "Rekha", "Ranbir Kapoor", "Dr. Vikram Sarabhai", "Will Smith"]),
   ("Scorpio", ["Shah Rukh Khan", "Aishwarya Rai", "Sushmita Sen", "Lal Bahadur Shastri", "Bill Gates"]),
   ("Sagittarius", ["Yami Gautam", "Dharmendra", "John Abraham", "Kalpana Chawla", "Taylor Swift"]),
   ("Capricorn", ["Deepika Padukone", "Hrithik Roshan", "Javed Akhtar", "Swami Vivekananda", "Michelle Obama"]),
   ("Aquarius", ["Preity Zinta", "Abhishek Bachchan", "Jackie Shroff", "Ratan Tata", "Oprah Winfrey"]),
   ("Pisces", ["Alia Bhatt", "Shahid Kapoor", "Tiger Shroff", "C. V. Raman", "Albert Einstein"])]

def famousZodiacs (sign : String) : List String :=
  ((FAMOUS_ZODIACS.find? (fun p => p.1 == sign)).map (·.2)).getD []

/-- Python lexicographic comparison `a <= b` on (month, day) tuples. -/
def pairLe (a b : Nat × Nat) : Bool :=
  Nat.blt a.1 b.1 || (Nat.beq a.1 b.1 && Nat.ble a.2 b.2)

/-- The `for sign, start, end in ZODIAC_SIGNS` scan of
`get_zodiac_and_famous_people`. -/
def zodiacScan (m d : Nat) : Option String :=
  (ZODIAC_SIGNS.find? (fun e => pairLe e.2.1 (m, d) && pairLe (m, d) e.2.2)).map (·.1)

def isLeapYear (y : Nat) : Bool :=
  y % 4 == 0 && (y % 100 != 0 || y % 400 == 0)

def monthLen (y m : Nat) : Nat :=
  if m = 2 then (if isLeapYear y then 29 else 28)
  else if m = 4 ∨ m = 6 ∨ m = 9 ∨ m = 11 then 30
  else 31

/-- One-or-two-digit numeric field of `strptime` (`%m` with `hi = 12`, `%d`
with `hi = 31`): the regex fragments `1[0-2]|0[1-9]|[1-9]` and
`3[01]|[12]\d|0[1-9]|[1-9]` accept exactly the 1-2 digit strings whose value
lies in `1..hi`. -/
def twoDigitField (s : String) (hi : Nat) : Option Nat :=
  if s ≠ "" ∧ s.length ≤ 2 ∧ s.toList.all Char.isDigit then
    let v := digitsToNat s.toList
    if 1 ≤ v ∧ v ≤ hi then some v else none
  else none

/-- Model of `datetime.strptime(s, "%Y-%m-%d")`: a four-digit year, 1-2 digit
month and day fields, full-string match, then calendar validation by the
`datetime` constructor (`none` models the raised `ValueError`). -/
def parseDatePy (s : String) : Option (Nat × Nat × Nat) :=
  match pySplit s '-' with
  | [ys, ms, ds] =>
    if ys.length = 4 ∧ ys.toList.all Char.isDigit then
      let y := digitsToNat ys.toList
      match twoDigitField ms 12, twoDigitField ds 31 with
      | some m, some d =>
        if 1 ≤ y ∧ d ≤ monthLen y m then some (y, m, d) else none
      | _, _ => none
    else none
  | _ => none

/-- Source `get_zodiac_and_famous_people`: any parse failure is caught inside
the function and yields `("Unknown", [])`. -/
def get_zodiac_and_famous_people (dob : String) : String × List String :=
  match parseDatePy dob with
  | some (_, m, d) =>
    match zodiacScan m d with
    | some sign => (sign, famousZodiacs sign)
    | none => ("Unknown", [])
  | none => ("Unknown", [])

/-- Zodiac computation as invoked by `/rag`: `strptime` raises `TypeError` on
a non-string argument, which the same internal `except` turns into
`("Unknown", [])`. -/
def zodiacOfJson : Json → String × List String
  | .str s => get_zodiac_and_famous_people s
  | _ => ("Unknown", [])

/-- Source `key_terms` of `format_response_item`. -/
def keyTerms : List String :=
  ["Social Engagement", "Self-Efficacy", "Temperament", "Internalizing",
   "Self-Esteem", "School Refusal", "Emotional Expression", "Dependent Behavior",
   "Parental Reinforcement", "Communication", "Independence", "Social Interaction"]

/-- Source `format_response_item` (the loop body always receives a string). -/
def format_response_item (item : String) : String :=
  keyTerms.foldl (fun it term =>
    if strContains it term && !(strContains it ("**" ++ term ++ "**")) then
      pyReplace it term ("**" ++ term ++ "**")
    else it) item

/-- The three section lists built by `parse_report_sections`. -/
structure Sections where
  strengths : List String
  weaknesses : List String
  recommendations : List String

/-- The line loop of `parse_report_sections`: heading detection switches the
current section, other lines are appended to it. -/
def sectionLoop : List String → Option Nat → Sections → Sections
  | [], _, acc => acc
  | line0 :: rest, cur, acc =>
    let line := pyTrim line0
    if line = "" then sectionLoop rest cur acc
    else
      let lower := pyLower line
      if strContains lower "strength" then sectionLoop rest (some 0) acc
      else if strContains lower "weakness" || strContains lower "area for improvement" ||
          strContains lower "areas for improvement" then sectionLoop rest (some 1) acc
      else if strContains lower "recommendation" then sectionLoop rest (some 2) acc
      else
        match cur with
        | none => sectionLoop rest cur acc
        | some 0 =>
          sectionLoop rest cur { acc with strengths := acc.strengths ++ [format_response_item line] }
        | some 1 =>
          sectionLoop rest cur { acc with weaknesses := acc.weaknesses ++ [format_response_item line] }
        | some _ =>
          sectionLoop rest cur { acc with recommendations := acc.recommendations ++ [format_response_item line] }

/-- Raw section contents before the cap-and-fallback pass. -/
def collectSections (text : String) : Sections :=
  sectionLoop (pySplit text '\n') none ⟨[], [], []⟩

/-- The final loop of `parse_report_sections`: cap at 3 items and substitute
the placeholder when empty. -/
def finalizeSection (l : List String) (name : String) : List String :=
  let t := l.take 3
  if t.isEmpty then ["No " ++ name ++ " identified"] else t

/-- Source `parse_report_sections`. -/
def parse_report_sections (text : String) : Sections :=
  let c := collectSections text
  ⟨finalizeSection c.strengths "strengths", finalizeSection c.weaknesses "weaknesses",
   finalizeSection c.recommendations "recommendations"⟩

/-! Embedding of the `/rag` route. -/

/-- Python `d.get(key, default)` on an arbitrary value (raises on non-dicts). -/
def pyGetDJ (j : Json) (k : String) (d : Json) : Except String Json :=
  match j with
  | .obj kvs => .ok ((getKV kvs k).getD d)
  | _ => .error "AttributeError: object has no attribute get"

/-- Python `d[key]` with a string key. -/
def pyIndexJ (j : Json) (k : String) : Except String Json :=
  match j with
  | .obj kvs =>
    match getKV kvs k with
    | some v => .ok v
    | none => .error ("KeyError: " ++ k)
  | _ => .error "TypeError: indices must be integers"

/-- Python `x in container` for a string `x`. -/
def pyContains (container : Json) (x : String) : Except String Bool :=
  match container with
  | .obj kvs => .ok (hasKeyKV kvs x)
  | .arr l => .ok (l.any (fun e => jsonEqStr e x))
  | .str s => .ok (strContains s x)
  | _ => .error "TypeError: argument is not a container"

def requiredRagFields : List String :=
  ["dob", "time_of_birth", "place_of_birth", "symptom_keywords"]

/-- The `for field in [...]` presence loop of `/rag`: the first missing field
produces the 400 response. -/
def checkFields : List String → Json → Except String (Option HResponse)
  | [], _ => .ok none
  | f :: fs, data =>
    match pyContains data f with
    | .error e => .error e
    | .ok b =>
      if b then checkFields fs data
      else .ok (some ⟨400, errObj ("Missing required field: " ++ f)⟩)

/-- Python `", ".join(l)`: every element must be a string. -/
def pyJoinComma (l : List Json) : Except String String :=
  match l.mapM (fun j => match j with
    | Json.str s => Except.ok s
    | _ => Except.error "TypeError: sequence item: expected str instance") with
  | .error e => .error e
  | .ok ss => .ok (", ".intercalate ss)

/-- One record of the academic-summary join in `/rag`. -/
def academicLine (rec : Json) : Except String String :=
  match pyGetDJ rec "year" (.str "") with
  | .error e => .error e
  | .ok yr =>
    match pyGetDJ rec "class" (.str "") with
    | .error e => .error e
    | .ok cls =>
      match pyGetDJ rec "subjects" (.arr []) with
      | .error e => .error e
      | .ok subs =>
        match pyIter subs with
        | .error e => .error e
        | .ok items =>
          match items.mapM (fun sub =>
            match pyIndexJ sub "subject" with
            | .error e => Except.error e
            | .ok sj =>
              match pyIndexJ sub "percentage" with
              | .error e => Except.error e
              | .ok pj => Except.ok (pyStr sj ++ " (" ++ pyStr pj ++ "%)")) with
          | .error e => .error e
          | .ok parts => .ok (pyStr yr ++ " - Class " ++ pyStr cls ++ ": " ++ ", ".intercalate parts)

/-- The academic-summary construction of `/rag`. -/
def buildAcademicSummary (academic : Json) : Except String String :=
  match academic with
  | .str s => .ok ("\nAcademic Performance:\n" ++ s)
  | .arr recs =>
    match recs.mapM academicLine with
    | .error e => .error e
    | .ok ls => .ok ("\nAcademic Performance:\n" ++ "\n".intercalate ls)
  | _ => .ok ""

/-- The `/rag` prompt f-string (content is never inspected downstream). -/
def buildRagQuery (dob tob pob : Json) (zodiac : String) (famous : List String)
    (symJoined asum : String) : String :=
  "\nComprehensive Child Profile Analysis Request:\n\n🧠 Basic Information:\n- Date of Birth: "
    ++ pyStr dob ++ "\n- Time of Birth: " ++ pyStr tob ++ "\n- Place of Birth: " ++ pyStr pob
    ++ "\n- Zodiac Sign: " ++ zodiac ++ "\n- Famous People with Same Sign: "
    ++ ", ".intercalate famous ++ "\n\n🧩 Psychological Traits (DSM-5 indicators):\n"
    ++ symJoined ++ "\n\n📘 Academic Performance Summary:\n"
    ++ (if asum ≠ "" then asum else "Academic records were not provided.")
    ++ "\n\n📊 Please provide:\n1. Three Key Strengths\n2. Three Areas for Improvement\n3. Three Personalized Recommendations\n\n💡 Notes:\n- Bold important traits (**like this**)\n"

/-- The symptom coercion of `/rag`: dict values, a list as is, else empty. -/
def symptomsOf : Json → List Json
  | .obj kvs => kvs.map (·.2)
  | .arr l => l
  | _ => []

/-- Body of the `try` of `/rag`; `chain` carries the outcome of the
`qa_chain` call (the reply text, or a raised exception). -/
def ragCore (data? : Option Json) (chain : Except String String) : Except String HResponse :=
  let data := data?.getD .null
  if !(jsonTruthy data) then .ok ⟨400, errObj "No JSON data received"⟩
  else
    match checkFields requiredRagFields data with
    | .error e => .error e
    | .ok (some resp) => .ok resp
    | .ok none =>
      match pyIndexJ data "dob" with
      | .error e => .error e
      | .ok dob =>
        match pyIndexJ data "time_of_birth" with
        | .error e => .error e
        | .ok tob =>
          match pyIndexJ data "place_of_birth" with
          | .error e => .error e
          | .ok pob =>
            match pyIndexJ data "symptom_keywords" with
            | .error e => .error e
            | .ok symptomsRaw =>
              let symptoms : List Json := symptomsOf symptomsRaw
              match pyGetDJ data "academic_records" (.arr []) with
              | .error e => .error e
              | .ok academic =>
                let zf := zodiacOfJson dob
                match buildAcademicSummary academic with
                | .error e => .error e
                | .ok asum =>
                  match pyJoinComma symptoms with
                  | .error e => .error e
                  | .ok symJoined =>
                    let _query := buildRagQuery dob tob pob zf.1 zf.2 symJoined asum
                    match chain with
                    | .error e => .error e
                    | .ok fullAnswer =>
                      let secs := parse_report_sections fullAnswer
                      .ok ⟨200, .obj [("strengths", .arr (secs.strengths.map .str)),
                        ("weaknesses", .arr (secs.weaknesses.map .str)),
                        ("recommendations", .arr (secs.recommendations.map .str)),
                        ("zodiac", .str zf.1), ("famous_people", .arr (zf.2.map .str)),
                        ("raw_answer", .str fullAnswer)]⟩

/-- Source route `/rag`: the blanket `except` turns any raise into a 500. -/
def rag (data? : Option Json) (chain : Except String String) : HResponse :=
  match ragCore data? chain with
  | .ok r => r
  | .error e => ⟨500, .obj [("error", .str "Failed to generate report"), ("details", .str e)]⟩

/-! Embedding of the discussion-bot functions and routes. -/

/-- The strength/weakness bullet join of `generate_discussion_questions`:
`chr(10).join('• ' + x for x in j[:2])` (string concatenation raises on
non-string elements; slicing raises on non-sliceable values). -/
def bulletJoin (j : Json) : Except String String :=
  match j with
  | .arr l =>
    match (l.take 2).mapM (fun e => match e with
      | Json.str s => Except.ok ("• " ++ s)
      | _ => Except.error "TypeError: can only concatenate str") with
    | .error e => .error e
    | .ok items => .ok ("\n".intercalate items)
  | .str s => .ok ("\n".intercalate ((s.toList.take 2).map (fun c => "• " ++ String.mk [c])))
  | _ => .error "TypeError: unhashable type: 'slice'"

/-- The numbered/bulleted question extraction loop of
`generate_discussion_questions`. -/
def gdqParse (text : String) : List String :=
  (pySplit text '\n').foldl (fun acc line0 =>
    let line := pyTrim line0
    if line ≠ "" ∧ (List.range' 1 9).any (fun i => pyStartsWith line (toString i ++ ".")) then
      let question := if strContains line ". " then pyTrim (splitOnceChar line '.').2 else line
      if question ≠ "" ∧ question.length > 5 then acc ++ [question] else acc
    else if line ≠ "" ∧ (pyStartsWith line "-" ∨ pyStartsWith line "•") then
      let question := pyTrim (String.mk (line.toList.drop 1))
      if question ≠ "" ∧ question.length > 5 then acc ++ [question] else acc
    else acc) []

/-- Source `get_short_fallback_questions` (called both inside the `try` and
from the `except` handler of `generate_discussion_questions`; a raise here
propagates to the route). -/
def get_short_fallback_questions (report pinfo : Json) : Except String (List String) :=
  match pyGetDJ pinfo "name" (.str "there") with
  | .error e => .error e
  | .ok nameJ =>
    match pyGetDJ report "strengths" (.arr []) with
    | .error e => .error e
    | .ok strengths =>
      match pyGetDJ report "weaknesses" (.arr []) with
      | .error e => .error e
      | .ok weaknesses =>
        let firstClean : Json → String → Except String String := fun j pre =>
          if jsonTruthy j then
            match j with
            | .arr (h :: _) =>
              match h with
              | .str s => .ok (pre ++ pyLower (pyTrim (pyReplace s "**" "")))
              | _ => .error "AttributeError: object has no attribute replace"
            | .arr [] => .error "IndexError: list index out of range"
            | .str s => .ok (pre ++ pyLower (pyTrim (pyReplace (String.mk (s.toList.take 1)) "**" "")))
            | _ => .error "TypeError: object is not subscriptable"
          else .ok ""
        match firstClean strengths "your " with
        | .error e => .error e
        | .ok sTxt =>
          match firstClean weaknesses "about " with
          | .error e => .error e
          | .ok wTxt =>
            let base :=
              (if sTxt ≠ "" then
                ["What do you enjoy about " ++ sTxt ++ "?",
                 "How does " ++ sTxt ++ " make you feel?"] else [])
              ++ (if wTxt ≠ "" then
                ["How do you feel about " ++ wTxt ++ "?",
                 "What helps you with " ++ wTxt ++ "?"] else [])
            let general :=
              ["What makes you happy, " ++ pyStr nameJ ++ "?",
               "What's your favorite thing to do?",
               "Who do you like spending time with?",
               "What are you good at?"]
            .ok ((base ++ general).take 5)

/-- The prompt f-string of `generate_discussion_questions` (content is never
inspected downstream). -/
def buildGdqQuery (nm age dob zodiac : Json) (sBul wBul : String) : String :=
  "\n        Generate 3-5 very short, simple questions for a child based on their psychological profile.\n        \n        Profile Summary:\n        \n        CHILD PROFILE:\n        - Name: "
    ++ pyStr nm ++ "\n        - Age: " ++ pyStr age ++ "\n        - Date of Birth: " ++ pyStr dob
    ++ "\n        - Zodiac Sign: " ++ pyStr zodiac
    ++ "\n        \n        Key Strengths (first 2):\n        " ++ sBul
    ++ "\n        \n        Areas for Improvement (first 2):\n        " ++ wBul
    ++ "\n        \n        GUIDELINES: keep questions very short and child friendly.\n        Return ONLY the questions as a numbered list, nothing else.\n        "

/-- The `try` body of `generate_discussion_questions`. -/
def gdqTry (report pinfo : Json) (chain : Except String String) : Except String (List String) :=
  match pyGetDJ pinfo "name" (.str "Unknown") with
  | .error e => .error e
  | .ok nm =>
    match pyGetDJ pinfo "age" (.str "Unknown") with
    | .error e => .error e
    | .ok age =>
      match pyGetDJ pinfo "dob" (.str "Unknown") with
      | .error e => .error e
      | .ok dob =>
        match pyGetDJ report "zodiac" (.str "Unknown") with
        | .error e => .error e
        | .ok zod =>
          match pyGetDJ report "strengths" (.arr []) with
          | .error e => .error e
          | .ok strengths =>
            match bulletJoin strengths with
            | .error e => .error e
            | .ok sBul =>
              match pyGetDJ report "weaknesses" (.arr []) with
              | .error e => .error e
              | .ok weaknesses =>
                match bulletJoin weaknesses with
                | .error e => .error e
                | .ok wBul =>
                  let _query := buildGdqQuery nm age dob zod sBul wBul
                  match chain with
                  | .error e => .error e
                  | .ok questionsText =>
                    let questions := gdqParse questionsText
                    if questions.isEmpty ∨ questions.length < 3 then
                      match get_short_fallback_questions report pinfo with
                      | .error e => .error e
                      | .ok fb => .ok (fb.take 5)
                    else .ok (questions.take 5)

/-- Source `generate_discussion_questions`: its `except` falls back to the
short questions (which may themselves raise, and then propagate). -/
def generate_discussion_questions (report pinfo : Json) (chain : Except String String) :
    Except String (List String) :=
  match gdqTry report pinfo chain with
  | .ok qs => .ok qs
  | .error _ => get_short_fallback_questions report pinfo

/-- The `try` body of route `/discussion-questions` (`weekTag` models the
wall-clock `week_seed()` value). -/
def dqCore (data? : Option Json) (chain : Except String String) (weekTag : String) :
    Except String HResponse :=
  let data := data?.getD .null
  if !(jsonTruthy data) then .ok ⟨400, errObj "No JSON data received"⟩
  else
    match pyGetDJ data "report" (.obj []) with
    | .error e => .error e
    | .ok report =>
      match pyGetDJ data "personal_info" (.obj []) with
      | .error e => .error e
      | .ok pinfo =>
        if !(jsonTruthy report) then .ok ⟨400, errObj "Missing required field: report"⟩
        else
          match generate_discussion_questions report pinfo chain with
          | .error e => .error e
          | .ok qs =>
            .ok ⟨200, .obj [("questions", .arr (qs.map .str)), ("week_tag", .str weekTag)]⟩

/-- Source route `/discussion-questions`. -/
def discussion_questions (data? : Option Json) (chain : Except String String)
    (weekTag : String) : HResponse :=
  match dqCore data? chain weekTag with
  | .ok r => r
  | .error e =>
    ⟨500, .obj [("error", .str "Failed to generate discussion questions"), ("details", .str e)]⟩

/-- One line of the conversation-history context. -/
def historyLine (msg : Json) : Except String String :=
  match pyGetDJ msg "role" .null with
  | .error e => .error e
  | .ok role =>
    match pyGetDJ msg "text" (.str "") with
    | .error e => .error e
    | .ok txt =>
      .ok ((if jsonEqStr role "user" then "Child" else "Assistant") ++ ": " ++ pyStr txt ++ "\n")

/-- Python `x[-4:]`. -/
def pySliceLast4 : Json → Except String Json
  | .arr l => .ok (.arr (l.drop (l.length - 4)))
  | .str s => .ok (.str (String.mk (s.toList.drop (s.toList.length - 4))))
  | _ => .error "TypeError: unhashable type: 'slice'"

/-- The history-context construction shared by the two discussion routes. -/
def buildHistoryContext (hist : Json) : Except String String :=
  if !(jsonTruthy hist) then .ok ""
  else
    match pySliceLast4 hist with
    | .error e => .error e
    | .ok sliced =>
      match pyIter sliced with
      | .error e => .error e
      | .ok msgs =>
        match msgs.mapM historyLine with
        | .error e => .error e
        | .ok ls => .ok ("Previous conversation:\n" ++ String.join ls)

/-- The prompt f-string shared by `/discussion-followup` and
`/discussion-free` (they differ only in the lead-in sentence; the content is
never inspected downstream). -/
def buildDiscussionQuery (lead : String) (question report pinfo : Json) (histCtx : String) :
    Except String String :=
  match pyGetDJ pinfo "name" (.str "Unknown") with
  | .error e => .error e
  | .ok nm =>
    match pyGetDJ pinfo "age" (.str "Unknown") with
    | .error e => .error e
    | .ok age =>
      match pyGetDJ pinfo "dob" (.str "Unknown") with
      | .error e => .error e
      | .ok dob =>
        match pyGetDJ report "zodiac" (.str "Unknown") with
        | .error e => .error e
        | .ok zod =>
          match pyGetDJ report "strengths" (.arr []) with
          | .error e => .error e
          | .ok st =>
            match pyGetDJ report "weaknesses" (.arr []) with
            | .error e => .error e
            | .ok wk =>
              match pyGetDJ report "recommendations" (.arr []) with
              | .error e => .error e
              | .ok rec =>
                .ok ("\n        You are a compassionate child psychologist named Saarthi having a conversation with a child.\n        \n        "
                  ++ histCtx ++ "\n        \n        " ++ lead ++ ": \"" ++ pyStr question
                  ++ "\".\n\n        CHILD'S COMPLETE PROFILE:\n        - Name: " ++ pyStr nm
                  ++ "\n        - Age: " ++ pyStr age ++ "\n        - Date of Birth: " ++ pyStr dob
                  ++ "\n        - Zodiac Sign: " ++ pyStr zod
                  ++ "\n        \n        PSYCHOLOGICAL REPORT:\n        Strengths: " ++ pyStr st
                  ++ "\n        Areas for Improvement: " ++ pyStr wk
                  ++ "\n        Recommendations: " ++ pyStr rec
                  ++ "\n        \n        TASK: respond empathetically, then suggest 3 follow-up questions.\n\n        RESPONSE FORMAT:\n        \x7b\x7b\n          \"answer\": \"...\",\n          \"questions\": [\"...\", \"...\", \"...\"]\n        \x7d\x7d\n        ")

/-- The reply clean-up of the discussion routes: strip, remove a ```json
fence, otherwise cut from the first opening brace to the last closing
brace. -/
def cleanupReply (reply : String) : String :=
  let c := pyTrim reply
  if pyStartsWith c "```json" then pyTrim (pyReplace (pyReplace c "```json" "") "```" "")
  else if strContains c "\x7b" ∧ strContains c "\x7d" then
    let cs := c.toList
    match cs.findIdx? (· == '\x7b') with
    | some i =>
      let jEnd := (cs.length - 1 - ((cs.reverse.findIdx? (· == '\x7d')).getD 0)) + 1
      String.mk ((cs.take jEnd).drop i)
    | none => c
  else c

/-- The answer-finding loop of the heuristic fallback parser. -/
def answerScan : List String → String
  | [] => ""
  | line :: rest =>
    if (strContains (pyLower line) "answer" ∨ strContains (pyLower line) "response" ∨
        strContains (pyLower line) ":") ∧ ¬ strContains (pyLower line) "question" then
      if strContains line ":" then pyTrim (splitOnceChar line ':').2 else line
    else answerScan rest

/-- The question-finding loop of the heuristic fallback parser. -/
def questionScan (lines : List String) : List String :=
  lines.foldl (fun acc line =>
    if (pyStartsWith line "-" ∨ pyStartsWith line "•" ∨
        ((line.toList.head?.map Char.isDigit).getD false) ∨
        strContains (pyLower line) "question") ∧ line.length > 10 then
      let c1 :=
        if pyStartsWith line "-" ∨ pyStartsWith line "•" then pyTrim (String.mk (line.toList.drop 1))
        else line
      let c2 := if strContains c1 ". " then pyTrim (splitOnceChar c1 '.').2 else c1
      if ¬ strContains (pyLower c2) "question" ∧ c2.length > 10 then acc ++ [c2] else acc
    else acc) []

/-- The `except` branch of the reply parsing: recover an answer and questions
from the raw reply text. -/
def heuristicParse (reply defAnswer : String) (extQs : List String) : Json × Json :=
  let lines := ((pySplit reply '\n').map pyTrim).filter (fun l => l ≠ "")
  let answer0 := answerScan lines
  let answer1 := if answer0 = "" ∧ lines ≠ [] then lines.headD "" else answer0
  let qs := questionScan lines
  let answer2 := if answer1 = "" then defAnswer else answer1
  let qs2 := if qs.length < 3 then qs ++ extQs else qs
  (.str answer2, .arr (qs2.map Json.str))

/-- The `try`/`except` reply parsing of the discussion routes: `json.loads`
plus `.get` accesses, falling back to the heuristic parse on any raise
(including a non-dict parse result). -/
def processReply (reply defAnswer : String) (extQs : List String) : Json × Json :=
  match jsonParse (cleanupReply reply) with
  | some (.obj kvs) =>
    ((getKV kvs "answer").getD (.str defAnswer), (getKV kvs "questions").getD (.arr []))
  | _ => heuristicParse reply defAnswer extQs

/-- Python `questions[:3]`. -/
def pySliceFirst3 : Json → Except String Json
  | .arr l => .ok (.arr (l.take 3))
  | .str s => .ok (.str (String.mk (s.toList.take 3)))
  | _ => .error "TypeError: unhashable type: 'slice'"

/-- The `while len(questions) < 3: questions.append(...)` loop: pads a list,
leaves a length-3 string unchanged, raises on a shorter string (`append` on
`str`) and on unsized values. -/
def padQuestions : Json → Except String Json
  | .arr l => .ok (.arr (l ++ List.replicate (3 - l.length) (.str "What are your thoughts about that?")))
  | .str s =>
    if s.length < 3 then .error "AttributeError: str object has no attribute append"
    else .ok (.str s)
  | .obj kvs =>
    if kvs.length < 3 then .error "AttributeError: dict object has no attribute append"
    else .ok (.obj kvs)
  | _ => .error "TypeError: object has no len"

/-- The shared `try` body of `/discussion-followup` and `/discussion-free`
(the two routes are verbatim copies up to the lead-in sentence and their
default strings). -/
def discussionCore (lead defAnswer : String) (extQs : List String)
    (data? : Option Json) (chain : Except String String) : Except String HResponse :=
  let data := data?.getD .null
  match pyGetDJ data "question" (.str "") with
  | .error e => .error e
  | .ok question =>
    match pyGetDJ data "report" (.obj []) with
    | .error e => .error e
    | .ok report =>
      match pyGetDJ data "personal_info" (.obj []) with
      | .error e => .error e
      | .ok pinfo =>
        match pyGetDJ data "conversation_history" (.arr []) with
        | .error e => .error e
        | .ok hist =>
          match buildHistoryContext hist with
          | .error e => .error e
          | .ok hctx =>
            match buildDiscussionQuery lead question report pinfo hctx with
            | .error e => .error e
            | .ok _query =>
              match chain with
              | .error e => .error e
              | .ok reply =>
                let aq := processReply reply defAnswer extQs
                match pySliceFirst3 aq.2 with
                | .error e => .error e
                | .ok q3 =>
                  match padQuestions q3 with
                  | .error e => .error e
                  | .ok qs => .ok ⟨200, .obj [("answer", aq.1), ("questions", qs)]⟩

/-- Source route `/discussion-followup`: its `except` returns a graceful
default payload with status 200. -/
def discussion_followup (data? : Option Json) (chain : Except String String) : HResponse :=
  match discussionCore "The child was asked this question"
      "That's really interesting! 😊 I'd love to hear more about that."
      ["Can you tell me more about that?", "What made you feel that way?",
       "How would you like to build on this strength?"] data? chain with
  | .ok r => r
  | .error _ =>
    ⟨200, .obj [("answer", .str "That's really interesting! 😊 Thanks for sharing. I'd love to hear more about your experiences and thoughts."),
      ("questions", .arr [.str "Can you tell me more about that?",
        .str "What made you feel that way?", .str "How would you like to build on this?"])]⟩

/-- Source route `/discussion-free`: its `except` returns a graceful default
payload with status 200. -/
def discussion_free (data? : Option Json) (chain : Except String String) : HResponse :=
  match discussionCore "The child asked"
      "That's a great question! 😊 Let's explore that together."
      ["Can you tell me more about what you're thinking?", "What made you curious about this?",
       "How do you feel about this topic?"] data? chain with
  | .ok r => r
  | .error _ =>
    ⟨200, .obj [("answer", .str "That's a really good question! 😊 I'd love to explore that with you. Your curiosity is wonderful!"),
      ("questions", .arr [.str "Can you tell me more about what you're thinking?",
        .str "What made you curious about this?", .str "How do you feel about this topic?"])]⟩

/-! Theorems. -/

theorem twoDigitField_bounds (s : String) (hi v : Nat) (h : twoDigitField s hi = some v) :
    1 ≤ v ∧ v ≤ hi := by
  unfold twoDigitField at h
  split at h
  · simp only at h
    split at h
    · simp only [Option.some.injEq] at h
      subst h
      assumption
    · simp at h
  · simp at h

theorem parseDatePy_bounds (s : String) (y m d : Nat) (h : parseDatePy s = some (y, m, d)) :
    1 ≤ m ∧ m ≤ 12 ∧ 1 ≤ d ∧ d ≤ 31 := by
  unfold parseDatePy at h
  split at h
  · split at h
    · split at h
      · simp only at h
        split at h
        · simp only [Option.some.injEq, Prod.mk.injEq] at h
          obtain ⟨-, hm, hd⟩ := h
          subst hm; subst hd
          have h1 := twoDigitField_bounds _ _ _ (by assumption : twoDigitField _ 12 = some _)
          have h2 := twoDigitField_bounds _ _ _ (by assumption : twoDigitField _ 31 = some _)
          exact ⟨h1.1, h1.2, h2.1, h2.2⟩
        · simp at h
      · simp at h
    · simp at h
  · simp at h

/-- Exhaustive check over all (month, day) pairs the date parser can emit:
the zodiac scan always finds a sign, the sign is one of the twelve, and its
famous-people list has five entries. -/
theorem zodiacScan_covers :
    ∀ m : Nat, m < 12 → ∀ d : Nat, d < 31 →
      (zodiacScan (m + 1) (d + 1)).isSome = true ∧
      ((zodiacScan (m + 1) (d + 1)).getD "Unknown" ≠ "Unknown") ∧
      ((FAMOUS_ZODIACS.map (·.1)).contains ((zodiacScan (m + 1) (d + 1)).getD "Unknown")) = true ∧
      (famousZodiacs ((zodiacScan (m + 1) (d + 1)).getD "Unknown")).length = 5 := by decide

/-- Claim C9: every date string parsing as `YYYY-MM-DD` yields one of the
twelve zodiac signs (never "Unknown") together with that sign's fixed
five-person famous list; `("Unknown", [])` is returned exactly when the
string does not parse. -/
theorem c9_zodiac_total (s : String) :
    (∀ y m d, parseDatePy s = some (y, m, d) →
      (get_zodiac_and_famous_people s).1 ≠ "Unknown" ∧
      ((FAMOUS_ZODIACS.map (·.1)).contains (get_zodiac_and_famous_people s).1) = true ∧
      (get_zodiac_and_famous_people s).2 = famousZodiacs (get_zodiac_and_famous_people s).1 ∧
      (get_zodiac_and_famous_people s).2.length = 5) ∧
    (parseDatePy s = none → get_zodiac_and_famous_people s = ("Unknown", [])) := by
  constructor
  · intro y m d hp
    have hb := parseDatePy_bounds s y m d hp
    have hc := zodiacScan_covers (m - 1) (by omega) (d - 1) (by omega)
    have hm1 : m - 1 + 1 = m := by omega
    have hd1 : d - 1 + 1 = d := by omega
    rw [hm1, hd1] at hc
    have hg : get_zodiac_and_famous_people s =
        (match zodiacScan m d with
          | some sign => (sign, famousZodiacs sign)
          | none => ("Unknown", [])) := by
      unfold get_zodiac_and_famous_people
      rw [hp]
    cases hscan : zodiacScan m d with
    | none => rw [hscan] at hc; simp at hc
    | some sign =>
      rw [hscan] at hc hg
      simp only [Option.getD_some] at hc
      rw [hg]
      exact ⟨hc.2.1, hc.2.2.1, rfl, hc.2.2.2⟩
  · intro hp
    unfold get_zodiac_and_famous_people
    rw [hp]

theorem c9_zodiac_total_witness :
    (get_zodiac_and_famous_people "2015-06-07").1 ≠ "Unknown" ∧
    (get_zodiac_and_famous_people "2015-06-07").2.length = 5 :=
  ⟨((c9_zodiac_total "2015-06-07").1 2015 6 7 (by rfl)).1,
   ((c9_zodiac_total "2015-06-07").1 2015 6 7 (by rfl)).2.2.2⟩

theorem finalizeSection_shape (l : List String) (name : String) :
    (finalizeSection l name).length ≤ 3 ∧ finalizeSection l name ≠ [] ∧
    (l = [] → finalizeSection l name = ["No " ++ name ++ " identified"]) := by
  unfold finalizeSection
  simp only
  refine ⟨?_, ?_, ?_⟩
  · split
    · simp
    · simp only [List.length_take]
      omega
  · split
    · simp
    · simp_all
  · intro h
    subst h
    simp

/-- Claim C3: for every input text the section parser returns exactly the
three lists strengths, weaknesses and recommendations, each of length at
most 3 and never empty; a section with no collected content is the single
placeholder string. -/
theorem c3_sections_shape (text : String) :
    ((parse_report_sections text).strengths.length ≤ 3 ∧
      (parse_report_sections text).strengths ≠ [] ∧
      ((collectSections text).strengths = [] →
        (parse_report_sections text).strengths = ["No strengths identified"])) ∧
    ((parse_report_sections text).weaknesses.length ≤ 3 ∧
      (parse_report_sections text).weaknesses ≠ [] ∧
      ((collectSections text).weaknesses = [] →
        (parse_report_sections text).weaknesses = ["No weaknesses identified"])) ∧
    ((parse_report_sections text).recommendations.length ≤ 3 ∧
      (parse_report_sections text).recommendations ≠ [] ∧
      ((collectSections text).recommendations = [] →
        (parse_report_sections text).recommendations = ["No recommendations identified"])) := by
  unfold parse_report_sections
  exact ⟨finalizeSection_shape _ _, finalizeSection_shape _ _, finalizeSection_shape _ _⟩

theorem c3_sections_shape_witness :
    (parse_report_sections "").strengths = ["No strengths identified"] ∧
    (parse_report_sections "Strengths:\nkind\nWeaknesses:\nshy\nfearful\nquiet\nrestless").weaknesses.length ≤ 3 :=
  ⟨(c3_sections_shape "").1.2.2 (by rfl),
   (c3_sections_shape "Strengths:\nkind\nWeaknesses:\nshy\nfearful\nquiet\nrestless").2.1.1⟩

/-- Refutation for claim C2: in the spreadsheet path an unrecognised grade
label ("G") does not become a zero-mark subject; `int("G")` raises and the
whole extraction returns an error dict with no subjects at all. -/
theorem c2_unknown_grade_counterexample :
    objGet (extract_data_from_excel (.ok [⟨some (.s "Math"), some (.s "G"), none⟩]))
      "subjects" = none ∧
    extract_data_from_excel (.ok [⟨some (.s "Math"), some (.s "G"), none⟩]) =
      .obj [("error", .str "Excel parsing error: invalid literal for int() with base 10: 'G'")] :=
  ⟨by with_unfolding_all rfl, by with_unfolding_all rfl⟩

theorem theoryStep_unknown_str (v : String) (gr : Json)
    (h1 : gradeToMarks v = none) (h2 : v ≠ "N/A") (h3 : v ≠ "") :
    theoryStep (.str v) gr = .ok (.str v) := by
  have hlist : inNAList (.str v) = false := by simp [inNAList, h2, h3]
  simp only [theoryStep, h1, hlist, Bool.false_eq_true, if_false]

theorem theoryStep_na_grade (th : Json) (g : String)
    (h1 : inNAList th = true) (h2 : gradeToMarks g = none) :
    theoryStep th (.str g) = .ok (.num 0) := by
  cases th with
  | str w =>
    have hw : w = "" ∨ w = "N/A" := by
      simp only [inNAList] at h1
      rcases Bool.or_eq_true_iff.1 h1 with h | h
      · left; simpa using h
      · right; simpa using h
    have hg : gradeToMarks w = none := by
      rcases hw with h | h <;> subst h <;> decide
    simp [theoryStep, hg, h1, h2]
  | null => simp [theoryStep, h1, h2, inNAList]
  | bool b => simp [inNAList] at h1
  | num q => simp [inNAList] at h1
  | arr l => simp [inNAList] at h1
  | obj kvs => simp [inNAList] at h1

theorem normalizeSubj_ok (kvs : List (String × Json)) (rec : Json) (o m : Int)
    (h : normalizeSubj (.obj kvs) = .ok (rec, o, m)) :
    ∃ t, theoryStep (jGetD (.obj kvs) "theory_marks" (.str "N/A"))
        (jGetD (.obj kvs) "grade" (.str "N/A")) = .ok t ∧
      o = intOfTheory t ∧
      m = intOfMax (jGetD (.obj kvs) "total_marks" (.num 100)) ∧
      rec = .obj [("subject_name", jGetD (.obj kvs) "subject_name" (.str "Unknown")),
        ("marks_obtained", .num (intOfTheory t : ℚ)), ("theory_marks", .num (intOfTheory t : ℚ)),
        ("total_marks", .num (intOfMax (jGetD (.obj kvs) "total_marks" (.num 100)) : ℚ)),
        ("grade", jGetD (.obj kvs) "grade" (.str "N/A"))] := by
  simp only [normalizeSubj] at h
  cases hts : theoryStep (jGetD (.obj kvs) "theory_marks" (.str "N/A"))
      (jGetD (.obj kvs) "grade" (.str "N/A")) with
  | error e => rw [hts] at h; simp at h
  | ok t =>
    rw [hts] at h
    simp only [Except.ok.injEq, Prod.mk.injEq] at h
    exact ⟨t, rfl, h.2.1.symm, h.2.2.symm, h.1.symm⟩

theorem normalizeSubj_obj_shape (subj rec : Json) (o m : Int)
    (h : normalizeSubj subj = .ok (rec, o, m)) : ∃ kvs, subj = .obj kvs := by
  cases subj with
  | obj kvs => exact ⟨kvs, rfl⟩
  | null => simp [normalizeSubj] at h
  | bool b => simp [normalizeSubj] at h
  | num q => simp [normalizeSubj] at h
  | str s => simp [normalizeSubj] at h
  | arr l => simp [normalizeSubj] at h

/-- Claim C2 as amended: the grade table is a bijection from its ten labels
onto ten distinct values; in the image/PDF path an unrecognised grade label
(arriving as the theory-marks string or, when theory marks are absent, as
the grade field) yields zero obtained marks; in the spreadsheet path only
the literal "N/A" yields zero, while any other unrecognised non-numeric
label aborts the extraction with an error result. -/
theorem c2_grade_table_amended :
    ((GRADE_TO_MARKS.map (fun p => p.1)).Nodup ∧ (GRADE_TO_MARKS.map (fun p => p.2)).Nodup ∧
      GRADE_TO_MARKS.length = 10) ∧
    (∀ subj rec o m v,
      normalizeSubj subj = .ok (rec, o, m) →
      jGetD subj "theory_marks" (.str "N/A") = .str v →
      gradeToMarks v = none → v ≠ "N/A" → v ≠ "" → o = 0) ∧
    (∀ subj rec o m g,
      normalizeSubj subj = .ok (rec, o, m) →
      inNAList (jGetD subj "theory_marks" (.str "N/A")) = true →
      jGetD subj "grade" (.str "N/A") = .str g →
      gradeToMarks g = none → o = 0) ∧
    (∀ row rec o m,
      row.marksObtained = some (.s "N/A") →
      excelRow row = .ok (rec, o, m) → o = 0) ∧
    (∀ row v, row.marksObtained = some (.s v) →
      gradeToMarks v = none → v ≠ "N/A" → parseIntPy v = none →
      ∃ e, excelRow row = .error e) := by
  refine ⟨by decide, ?_, ?_, ?_, ?_⟩
  · intro subj rec o m v h hth htab hna hemp
    obtain ⟨kvs, rfl⟩ := normalizeSubj_obj_shape subj rec o m h
    obtain ⟨t, hts, ho, -, -⟩ := normalizeSubj_ok kvs rec o m h
    rw [hth] at hts
    rw [theoryStep_unknown_str v _ htab hna hemp] at hts
    simp only [Except.ok.injEq] at hts
    subst hts
    simp [ho, intOfTheory]
  · intro subj rec o m g h hth hgr htab
    obtain ⟨kvs, rfl⟩ := normalizeSubj_obj_shape subj rec o m h
    obtain ⟨t, hts, ho, -, -⟩ := normalizeSubj_ok kvs rec o m h
    rw [hgr] at hts
    rw [theoryStep_na_grade _ g hth htab] at hts
    simp only [Except.ok.injEq] at hts
    subst hts
    simp [ho, intOfTheory, ratTrunc]
  · intro row rec o m hmo h
    have hG : gradeToMarks "N/A" = none := by decide
    simp only [excelRow, hmo, Option.getD_some, hG] at h
    simp at h
    rw [← h.2.1]
    decide
  · intro row v hmo htab hna hpi
    refine ⟨"invalid literal for int() with base 10: '" ++ v ++ "'", ?_⟩
    simp only [excelRow, hmo, Option.getD_some, htab]
    simp only [hna, if_false, hpi]

theorem c2_grade_table_amended_witness :
    (0 : Int) = 0 ∧ ∃ e, excelRow ⟨none, some (.s "G"), none⟩ = .error e :=
  ⟨c2_grade_table_amended.2.1 (.obj [("theory_marks", .str "G")])
      (.obj [("subject_name", .str "Unknown"), ("marks_obtained", .num 0),
        ("theory_marks", .num 0), ("total_marks", .num 100), ("grade", .str "N/A")])
      0 100 "G" (by with_unfolding_all rfl) (by rfl) (by decide) (by decide) (by decide),
   c2_grade_table_amended.2.2.2.2 ⟨none, some (.s "G"), none⟩ "G" rfl (by decide)
     (by decide) (by decide)⟩

/-- Claim C8: in both extraction paths, a maximum-marks field that cannot be
parsed as an integer makes the stored maximum default to 100. -/
theorem c8_max_marks_default :
    (∀ row c rec o m, row.totalMarks = some c → cellInt c = none →
      excelRow row = .ok (rec, o, m) → m = 100) ∧
    (∀ subj rec o m, normalizeSubj subj = .ok (rec, o, m) →
      pyIntJ (jGetD subj "total_marks" (.num 100)) = none → m = 100) := by
  constructor
  · intro row c rec o m hrow hc h
    simp only [excelRow, hrow, Option.getD_some, hc] at h
    split at h
    · simp_all
    · split at h
      · simp_all
      · simp_all
  · intro subj rec o m h hn
    obtain ⟨kvs, rfl⟩ := normalizeSubj_obj_shape subj rec o m h
    obtain ⟨t, -, -, hm, -⟩ := normalizeSubj_ok kvs rec o m h
    rw [hm]
    simp [intOfMax, hn]

theorem c8_max_marks_default_witness :
    (100 : Int) = 100 ∧ (100 : Int) = 100 :=
  ⟨c8_max_marks_default.1 ⟨none, some (.n 50), some (.s "abc")⟩ (.s "abc")
      (.obj [("subject_name", .str "N/A"), ("theory_marks", .num 50),
        ("total_marks", .num 100), ("grade", .str "N/A")]) 50 100
      rfl (by decide) (by with_unfolding_all rfl),
   c8_max_marks_default.2 (.obj [("total_marks", .null)])
      (.obj [("subject_name", .str "Unknown"), ("marks_obtained", .num 0),
        ("theory_marks", .num 0), ("total_marks", .num 100), ("grade", .str "N/A")])
      0 100 (by with_unfolding_all rfl) (by rfl)⟩

def isObjB : Json → Bool
  | .obj _ => true
  | _ => false

theorem isObjB_objSet (j : Json) (k : String) (v : Json) :
    isObjB (objSet j k v) = isObjB j := by
  cases j <;> rfl

theorem objGet_objSet_same2 (j : Json) (k : String) (v : Json) (h : isObjB j = true) :
    objGet (objSet j k v) k = some v := by
  cases j <;> simp_all [objGet, objSet, getKV_setKV_same, isObjB]

theorem objGet_objSet_diff2 (j : Json) (k k' : String) (v : Json) (h : k' ≠ k) :
    objGet (objSet j k v) k' = objGet j k' := by
  cases j <;> simp [objGet, objSet, getKV_setKV_diff _ _ _ _ h]

theorem objGet_if (c : Prop) [Decidable c] (a b : Json) (k : String) :
    objGet (if c then a else b) k = if c then objGet a k else objGet b k := by
  split <;> rfl

theorem isObjB_if (c : Prop) [Decidable c] (a b : Json) :
    isObjB (if c then a else b) = if c then isObjB a else isObjB b := by
  split <;> rfl

theorem isObjB_obj (kvs : List (String × Json)) : isObjB (.obj kvs) = true := rfl

theorem pageAssemble_subjects (kvs : List (String × Json)) (ns : List Json) (ob tm : Int) :
    objGet (pageAssemble (.obj kvs) ns ob tm) "subjects" = some (.arr ns) := by
  simp [pageAssemble, objGet_if, objGet_objSet_same2, objGet_objSet_diff2,
    isObjB_objSet, isObjB_obj, isObjB_if]

theorem pageAssemble_source_type (kvs : List (String × Json)) (ns : List Json) (ob tm : Int) :
    objGet (pageAssemble (.obj kvs) ns ob tm) "source_type" =
      some (.str (
        if (match (objGet (.obj kvs) "other_info").getD .null with
            | Json.obj kv2 => hasKeyKV kv2 "GPA"
            | _ => false) then "gpa"
        else if ns.any (fun s => !(inNAList (jGetD s "grade" .null))) then "grade"
        else "marks")) := by
  simp [pageAssemble, objGet_if, objGet_objSet_same2, objGet_objSet_diff2,
    isObjB_objSet, isObjB_obj, isObjB_if, jGetD]

theorem pageAssemble_totals (kvs : List (String × Json)) (ns : List Json) (ob tm : Int)
    (h : tm > 0) :
    objGet (pageAssemble (.obj kvs) ns ob tm) "obtained_marks" = some (.num (ob : ℚ)) ∧
    objGet (pageAssemble (.obj kvs) ns ob tm) "total_marks" = some (.num (tm : ℚ)) ∧
    objGet (pageAssemble (.obj kvs) ns ob tm) "percentage" =
      some (.num (round2 ((ob : ℚ) / (tm : ℚ) * 100))) ∧
    objGet (pageAssemble (.obj kvs) ns ob tm) "pass_fail" =
      some (.str (if round2 ((ob : ℚ) / (tm : ℚ) * 100) ≥ 40 then "Pass" else "Fail")) := by
  refine ⟨?_, ?_, ?_, ?_⟩ <;>
    simp [pageAssemble, h, objGet_if, objGet_objSet_same2, objGet_objSet_diff2,
      isObjB_objSet, isObjB_obj, isObjB_if, jGetD]

theorem pageAssemble_other_info (kvs : List (String × Json)) (ns : List Json) (ob tm : Int) :
    objGet (pageAssemble (.obj kvs) ns ob tm) "other_info" = objGet (.obj kvs) "other_info" := by
  simp [pageAssemble, objGet_if, objGet_objSet_same2, objGet_objSet_diff2,
    isObjB_objSet, isObjB_obj, isObjB_if, jGetD]

theorem processPage_ok (cleaned page : Json) (h : processPage cleaned = .ok page) :
    ∃ kvs items ns ob tm, cleaned = .obj kvs ∧
      pyIter (jGetD cleaned "subjects" (.arr [])) = .ok items ∧
      normScan items = .ok (ns, ob, tm) ∧
      page = pageAssemble cleaned ns ob tm := by
  cases cleaned with
  | obj kvs =>
    simp only [processPage] at h
    cases hit : pyIter (jGetD (.obj kvs) "subjects" (.arr [])) with
    | error e => rw [hit] at h; simp at h
    | ok items =>
      rw [hit] at h
      dsimp only at h
      cases hns : normScan items with
      | error e => rw [hns] at h; simp at h
      | ok y =>
        obtain ⟨ns, ob, tm⟩ := y
        rw [hns] at h
        simp only [Except.ok.injEq] at h
        exact ⟨kvs, items, ns, ob, tm, rfl, rfl, hns, h.symm⟩
  | null => simp [processPage] at h
  | bool b => simp [processPage] at h
  | num q => simp [processPage] at h
  | str s => simp [processPage] at h
  | arr l => simp [processPage] at h

/-- Sum of a numeric field over a list of subject dicts (non-numeric or
missing fields count as zero; the normalised subjects always carry numeric
values there). -/
def numFieldOf (s : Json) (k : String) : ℚ :=
  match objGet s k with
  | some (.num q) => q
  | _ => 0

def sumField (ns : List Json) (k : String) : ℚ :=
  (ns.map (fun s => numFieldOf s k)).sum

theorem normScan_sums (items ns : List Json) (ob tm : Int)
    (h : normScan items = .ok (ns, ob, tm)) :
    (ob : ℚ) = sumField ns "marks_obtained" ∧ (tm : ℚ) = sumField ns "total_marks" ∧
    ∀ s ∈ ns, objGet s "marks_obtained" = objGet s "theory_marks" ∧
      ∃ oi : Int, objGet s "marks_obtained" = some (.num (oi : ℚ)) := by
  induction items generalizing ns ob tm with
  | nil =>
    simp only [normScan, Except.ok.injEq, Prod.mk.injEq] at h
    obtain ⟨h1, h2, h3⟩ := h
    subst h1; subst h2; subst h3
    simp [sumField]
  | cons s rest ih =>
    simp only [normScan] at h
    cases hs : normalizeSubj s with
    | error e => rw [hs] at h; simp at h
    | ok x =>
      obtain ⟨n1, o1, m1⟩ := x
      rw [hs] at h
      cases hr : normScan rest with
      | error e => rw [hr] at h; simp at h
      | ok y =>
        obtain ⟨l, ob2, tm2⟩ := y
        rw [hr] at h
        simp only [Except.ok.injEq, Prod.mk.injEq] at h
        obtain ⟨hns, hob, htm⟩ := h
        subst hns; subst hob; subst htm
        obtain ⟨hsum1, hsum2, hfields⟩ := ih l ob2 tm2 hr
        obtain ⟨kvs, rfl⟩ := normalizeSubj_obj_shape s n1 o1 m1 hs
        obtain ⟨t, -, ho1, hm1, hrec⟩ := normalizeSubj_ok kvs n1 o1 m1 hs
        have hmo : objGet n1 "marks_obtained" = some (.num (o1 : ℚ)) := by
          rw [hrec, ho1]; simp [objGet, getKV]
        have hth : objGet n1 "theory_marks" = some (.num (o1 : ℚ)) := by
          rw [hrec, ho1]; simp [objGet, getKV]
        have htm1 : objGet n1 "total_marks" = some (.num (m1 : ℚ)) := by
          rw [hrec, hm1]; simp [objGet, getKV]
        refine ⟨?_, ?_, ?_⟩
        · simp only [sumField] at hsum1 ⊢
          simp only [List.map_cons, List.sum_cons]
          rw [show numFieldOf n1 "marks_obtained" = (o1 : ℚ) by simp [numFieldOf, hmo]]
          push_cast
          rw [hsum1]
        · simp only [sumField] at hsum2 ⊢
          simp only [List.map_cons, List.sum_cons]
          rw [show numFieldOf n1 "total_marks" = (m1 : ℚ) by simp [numFieldOf, htm1]]
          push_cast
          rw [hsum2]
        · intro x hx
          rcases List.mem_cons.1 hx with hx1 | hx2
          · subst hx1
            exact ⟨hmo.trans hth.symm, o1, hmo⟩
          · exact hfields x hx2

/-- Claim C7: every page the normaliser produces carries a `source_type` tag
in the set (marks, grade, gpa): "gpa" when `other_info` is a dict with a GPA
key, otherwise "grade" when some normalised subject has a populated grade
label (not None, "" or "N/A"), otherwise "marks". -/
theorem c7_source_type_tag (cleaned page : Json) (h : processPage cleaned = .ok page) :
    ∃ ns, objGet page "subjects" = some (.arr ns) ∧
      objGet page "source_type" = some (.str (
        if (match (objGet page "other_info").getD .null with
            | Json.obj kv2 => hasKeyKV kv2 "GPA"
            | _ => false) then "gpa"
        else if ns.any (fun s => !(inNAList (jGetD s "grade" .null))) then "grade"
        else "marks")) ∧
      (objGet page "source_type" = some (.str "marks") ∨
       objGet page "source_type" = some (.str "grade") ∨
       objGet page "source_type" = some (.str "gpa")) := by
  obtain ⟨kvs, items, ns, ob, tm, rfl, hit, hns, rfl⟩ := processPage_ok cleaned page h
  refine ⟨ns, pageAssemble_subjects kvs ns ob tm, ?_, ?_⟩
  · rw [pageAssemble_source_type kvs ns ob tm, pageAssemble_other_info kvs ns ob tm]
  · rw [pageAssemble_source_type kvs ns ob tm]
    split
    · right; right; rfl
    · split
      · right; left; rfl
      · left; rfl

theorem c7_source_type_tag_witness :
    ∃ page, processPage (.obj [("subjects", .arr [.obj [("subject_name", .str "Sci"),
        ("theory_marks", .str "N/A"), ("grade", .str "B+")]])]) = .ok page ∧
      (objGet page "source_type" = some (.str "marks") ∨
       objGet page "source_type" = some (.str "grade") ∨
       objGet page "source_type" = some (.str "gpa")) := by
  have h : processPage (.obj [("subjects", .arr [.obj [("subject_name", .str "Sci"),
      ("theory_marks", .str "N/A"), ("grade", .str "B+")]])]) =
      .ok (pageAssemble (.obj [("subjects", .arr [.obj [("subject_name", .str "Sci"),
        ("theory_marks", .str "N/A"), ("grade", .str "B+")]])])
        [.obj [("subject_name", .str "Sci"), ("marks_obtained", .num 75),
          ("theory_marks", .num 75), ("total_marks", .num 100), ("grade", .str "B+")]]
        75 100) := by
    with_unfolding_all rfl
  obtain ⟨ns, -, -, h3⟩ := c7_source_type_tag _ _ h
  exact ⟨_, h, h3⟩

theorem passFail_iff (q : ℚ) :
    (Json.str (if q ≥ 40 then "Pass" else "Fail") = .str "Pass") ↔ 40 ≤ q := by
  constructor
  · intro h
    by_contra hlt
    rw [if_neg hlt] at h
    simp at h
  · intro hge
    rw [if_pos hge]

/-- Claim C10: in every normalised page whose summed subject maxima are
positive, `obtained_marks` is the sum of the subjects' `marks_obtained`,
`total_marks` is the sum of their `total_marks`, and every normalised
subject stores the same integer under `marks_obtained` and `theory_marks`. -/
theorem c10_aggregate_sums (cleaned page : Json) (ns : List Json)
    (h : processPage cleaned = .ok page)
    (hsub : objGet page "subjects" = some (.arr ns))
    (hpos : 0 < sumField ns "total_marks") :
    objGet page "obtained_marks" = some (.num (sumField ns "marks_obtained")) ∧
    objGet page "total_marks" = some (.num (sumField ns "total_marks")) ∧
    ∀ s ∈ ns, objGet s "marks_obtained" = objGet s "theory_marks" ∧
      ∃ oi : Int, objGet s "marks_obtained" = some (.num (oi : ℚ)) := by
  obtain ⟨kvs, items, ns', ob, tm, rfl, hit, hns, rfl⟩ := processPage_ok cleaned page h
  have hsub' := pageAssemble_subjects kvs ns' ob tm
  rw [hsub'] at hsub
  simp only [Option.some.injEq, Json.arr.injEq] at hsub
  obtain ⟨hs1, hs2, hs3⟩ := normScan_sums items ns' ob tm hns
  rw [hsub] at hs1 hs2 hs3
  have htm : tm > 0 := by
    rw [← hs2] at hpos
    exact_mod_cast hpos
  obtain ⟨h1, h2, -, -⟩ := pageAssemble_totals kvs ns' ob tm htm
  refine ⟨?_, ?_, hs3⟩
  · rw [h1, hs1]
  · rw [h2, hs2]

theorem c10_aggregate_sums_witness :
    objGet (pageAssemble (.obj [("subjects", .arr [.obj [("subject_name", .str "Sci"),
        ("theory_marks", .str "N/A"), ("grade", .str "B+")]])])
        [.obj [("subject_name", .str "Sci"), ("marks_obtained", .num 75),
          ("theory_marks", .num 75), ("total_marks", .num 100), ("grade", .str "B+")]]
        75 100) "obtained_marks" =
      some (.num (sumField [.obj [("subject_name", .str "Sci"), ("marks_obtained", .num 75),
        ("theory_marks", .num 75), ("total_marks", .num 100), ("grade", .str "B+")]]
        "marks_obtained")) :=
  (c10_aggregate_sums
    (.obj [("subjects", .arr [.obj [("subject_name", .str "Sci"),
      ("theory_marks", .str "N/A"), ("grade", .str "B+")]])])
    _ _ (by with_unfolding_all rfl) (by with_unfolding_all rfl)
    (by with_unfolding_all decide)).1

theorem excelRow_fields (row : Row) (rec : Json) (o m : Int)
    (h : excelRow row = .ok (rec, o, m)) :
    objGet rec "theory_marks" = some (.num (o : ℚ)) ∧
    objGet rec "total_marks" = some (.num (m : ℚ)) := by
  simp only [excelRow] at h
  split at h
  · simp only [Except.ok.injEq, Prod.mk.injEq] at h
    obtain ⟨hrec, ho, hm⟩ := h
    subst ho; subst hm
    rw [← hrec]
    simp [objGet, getKV]
  · split at h
    · simp only [Except.ok.injEq, Prod.mk.injEq] at h
      obtain ⟨hrec, ho, hm⟩ := h
      subst ho; subst hm
      rw [← hrec]
      simp [objGet, getKV]
    · simp at h

theorem excelScan_sums (rows : List Row) (subs : List Json) (ob tm : Int)
    (h : excelScan rows = .ok (subs, ob, tm)) :
    (ob : ℚ) = sumField subs "theory_marks" ∧ (tm : ℚ) = sumField subs "total_marks" := by
  induction rows generalizing subs ob tm with
  | nil =>
    simp only [excelScan, Except.ok.injEq, Prod.mk.injEq] at h
    obtain ⟨h1, h2, h3⟩ := h
    subst h1; subst h2; subst h3
    simp [sumField]
  | cons r rest ih =>
    simp only [excelScan] at h
    cases hs : excelRow r with
    | error e => rw [hs] at h; simp at h
    | ok x =>
      obtain ⟨n1, o1, m1⟩ := x
      rw [hs] at h
      cases hr : excelScan rest with
      | error e => rw [hr] at h; simp at h
      | ok y =>
        obtain ⟨l, ob2, tm2⟩ := y
        rw [hr] at h
        simp only [Except.ok.injEq, Prod.mk.injEq] at h
        obtain ⟨hns, hob, htm⟩ := h
        subst hns; subst hob; subst htm
        obtain ⟨hsum1, hsum2⟩ := ih l ob2 tm2 hr
        obtain ⟨hf1, hf2⟩ := excelRow_fields r n1 o1 m1 hs
        constructor
        · simp only [sumField] at hsum1 ⊢
          simp only [List.map_cons, List.sum_cons]
          rw [show numFieldOf n1 "theory_marks" = (o1 : ℚ) by simp [numFieldOf, hf1]]
          push_cast
          rw [hsum1]
        · simp only [sumField] at hsum2 ⊢
          simp only [List.map_cons, List.sum_cons]
          rw [show numFieldOf n1 "total_marks" = (m1 : ℚ) by simp [numFieldOf, hf2]]
          push_cast
          rw [hsum2]

theorem extract_data_from_excel_ok (rows : List Row) (subs : List Json) (ob tm : Int)
    (h : excelScan rows = .ok (subs, ob, tm)) (htm : tm ≠ 0) :
    objGet (extract_data_from_excel (.ok rows)) "percentage" =
      some (.num (round2 ((ob : ℚ) / (tm : ℚ) * 100))) ∧
    objGet (extract_data_from_excel (.ok rows)) "pass_fail" =
      some (.str (if round2 ((ob : ℚ) / (tm : ℚ) * 100) ≥ 40 then "Pass" else "Fail")) := by
  simp only [extract_data_from_excel, h, htm, if_true, ne_eq, not_false_eq_true]
  constructor
  · rfl
  · rfl

/-- Claim C1: in both extraction paths, whenever the summed subject maxima
are positive the reported percentage is (summed obtained / summed maxima)
times 100 rounded to two decimals, and `pass_fail` is "Pass" exactly when
that percentage is at least 40. -/
theorem c1_percentage_pass_fail :
    (∀ rows subs ob tm, excelScan rows = .ok (subs, ob, tm) →
      0 < sumField subs "total_marks" →
      objGet (extract_data_from_excel (.ok rows)) "percentage" =
        some (.num (round2 (sumField subs "theory_marks" / sumField subs "total_marks" * 100))) ∧
      (objGet (extract_data_from_excel (.ok rows)) "pass_fail" = some (.str "Pass") ↔
        40 ≤ round2 (sumField subs "theory_marks" / sumField subs "total_marks" * 100))) ∧
    (∀ cleaned page ns, processPage cleaned = .ok page →
      objGet page "subjects" = some (.arr ns) →
      0 < sumField ns "total_marks" →
      objGet page "percentage" =
        some (.num (round2 (sumField ns "marks_obtained" / sumField ns "total_marks" * 100))) ∧
      (objGet page "pass_fail" = some (.str "Pass") ↔
        40 ≤ round2 (sumField ns "marks_obtained" / sumField ns "total_marks" * 100))) := by
  constructor
  · intro rows subs ob tm h hpos
    obtain ⟨hs1, hs2⟩ := excelScan_sums rows subs ob tm h
    have htm : tm ≠ 0 := by
      intro h0
      rw [h0] at hs2
      rw [← hs2] at hpos
      simp at hpos
    obtain ⟨hp1, hp2⟩ := extract_data_from_excel_ok rows subs ob tm h htm
    rw [← hs1, ← hs2]
    refine ⟨hp1, ?_⟩
    rw [hp2]
    simp only [Option.some.injEq]
    exact passFail_iff _
  · intro cleaned page ns h hsub hpos
    obtain ⟨kvs, items, ns', ob, tm, rfl, hit, hns, rfl⟩ := processPage_ok cleaned page h
    have hsub' := pageAssemble_subjects kvs ns' ob tm
    rw [hsub'] at hsub
    simp only [Option.some.injEq, Json.arr.injEq] at hsub
    obtain ⟨hs1, hs2, -⟩ := normScan_sums items ns' ob tm hns
    rw [hsub] at hs1 hs2
    have htm : tm > 0 := by
      rw [← hs2] at hpos
      exact_mod_cast hpos
    obtain ⟨-, -, h3, h4⟩ := pageAssemble_totals kvs ns' ob tm htm
    rw [← hs1, ← hs2]
    refine ⟨h3, ?_⟩
    rw [h4]
    simp only [Option.some.injEq]
    exact passFail_iff _

theorem c1_percentage_pass_fail_witness :
    objGet (extract_data_from_excel (.ok [⟨some (.s "Math"), some (.s "A"), some (.n 100)⟩]))
      "percentage" =
      some (.num (round2 (sumField [.obj [("subject_name", .str "Math"),
          ("theory_marks", .num 85), ("total_marks", .num 100), ("grade", .str "N/A")]]
        "theory_marks" /
        sumField [.obj [("subject_name", .str "Math"), ("theory_marks", .num 85),
          ("total_marks", .num 100), ("grade", .str "N/A")]] "total_marks" * 100))) ∧
    objGet (pageAssemble (.obj [("subjects", .arr [.obj [("subject_name", .str "Sci"),
        ("theory_marks", .str "N/A"), ("grade", .str "B+")]])])
        [.obj [("subject_name", .str "Sci"), ("marks_obtained", .num 75),
          ("theory_marks", .num 75), ("total_marks", .num 100), ("grade", .str "B+")]]
        75 100) "percentage" =
      some (.num (round2 (sumField [.obj [("subject_name", .str "Sci"),
          ("marks_obtained", .num 75), ("theory_marks", .num 75), ("total_marks", .num 100),
          ("grade", .str "B+")]] "marks_obtained" /
        sumField [.obj [("subject_name", .str "Sci"), ("marks_obtained", .num 75),
          ("theory_marks", .num 75), ("total_marks", .num 100), ("grade", .str "B+")]]
          "total_marks" * 100))) :=
  ⟨(c1_percentage_pass_fail.1 [⟨some (.s "Math"), some (.s "A"), some (.n 100)⟩]
      [.obj [("subject_name", .str "Math"), ("theory_marks", .num 85),
        ("total_marks", .num 100), ("grade", .str "N/A")]] 85 100
      (by with_unfolding_all rfl) (by with_unfolding_all decide)).1,
   (c1_percentage_pass_fail.2
      (.obj [("subjects", .arr [.obj [("subject_name", .str "Sci"),
        ("theory_marks", .str "N/A"), ("grade", .str "B+")]])])
      _
      [.obj [("subject_name", .str "Sci"), ("marks_obtained", .num 75),
        ("theory_marks", .num 75), ("total_marks", .num 100), ("grade", .str "B+")]]
      (by with_unfolding_all rfl) (by with_unfolding_all rfl)
      (by with_unfolding_all decide)).1⟩

theorem checkFields_missing (fs : List String) (kvs : List (String × Json))
    (h : ∃ f ∈ fs, hasKeyKV kvs f = false) :
    ∃ g, checkFields fs (.obj kvs) =
      .ok (some ⟨400, errObj ("Missing required field: " ++ g)⟩) := by
  induction fs with
  | nil => simp at h
  | cons f rest ih =>
    obtain ⟨g, hg, hmiss⟩ := h
    by_cases hf : hasKeyKV kvs f = true
    · have hgr : g ∈ rest := by
        rcases List.mem_cons.1 hg with h1 | h2
        · subst h1; rw [hf] at hmiss; cases hmiss
        · exact h2
      obtain ⟨g', hg'⟩ := ih ⟨g, hgr, hmiss⟩
      exact ⟨g', by simp [checkFields, pyContains, hf, hg']⟩
    · have hf' : hasKeyKV kvs f = false := by simpa using hf
      exact ⟨f, by simp [checkFields, pyContains, hf']⟩

/-- Claim C5: every listed missing-input case produces a 400 with an error
message: no uploaded file / empty filename for extraction, a missing or
falsy JSON body, a missing required field for `/rag`, and a missing (or
falsy) report for `/discussion-questions`. -/
theorem c5_missing_input_400 :
    (extract_marksheet none = .ok ⟨400, errObj "No file uploaded"⟩) ∧
    (∀ f : UploadedFile, f.filename = "" →
      extract_marksheet (some f) = .ok ⟨400, errObj "No file selected"⟩) ∧
    (∀ (data? : Option Json) chain, jsonTruthy (data?.getD .null) = false →
      rag data? chain = ⟨400, errObj "No JSON data received"⟩) ∧
    (∀ kvs chain, jsonTruthy (.obj kvs) = true →
      (∃ f ∈ requiredRagFields, hasKeyKV kvs f = false) →
      ∃ g, rag (some (.obj kvs)) chain = ⟨400, errObj ("Missing required field: " ++ g)⟩) ∧
    (∀ (data? : Option Json) chain wk, jsonTruthy (data?.getD .null) = false →
      discussion_questions data? chain wk = ⟨400, errObj "No JSON data received"⟩) ∧
    (∀ kvs chain wk, jsonTruthy (.obj kvs) = true →
      jsonTruthy ((getKV kvs "report").getD (.obj [])) = false →
      discussion_questions (some (.obj kvs)) chain wk =
        ⟨400, errObj "Missing required field: report"⟩) := by
  refine ⟨rfl, ?_, ?_, ?_, ?_, ?_⟩
  · intro f hf
    simp [extract_marksheet, hf]
  · intro data? chain ht
    simp [rag, ragCore, ht]
  · intro kvs chain ht hmiss
    obtain ⟨g, hg⟩ := checkFields_missing requiredRagFields kvs hmiss
    refine ⟨g, ?_⟩
    simp [rag, ragCore, ht, hg]
  · intro data? chain wk ht
    simp [discussion_questions, dqCore, ht]
  · intro kvs chain wk ht hrep
    simp [discussion_questions, dqCore, ht, pyGetDJ, jGetD, hrep]

theorem c5_missing_input_400_witness :
    (∃ g, rag (some (.obj [("dob", .str "2015-06-07")])) (.ok "x") =
      ⟨400, errObj ("Missing required field: " ++ g)⟩) ∧
    extract_marksheet (some ⟨"", .ok [], .ok [], .ok (.ok "")⟩) =
      .ok ⟨400, errObj "No file selected"⟩ ∧
    rag none (.ok "x") = ⟨400, errObj "No JSON data received"⟩ ∧
    discussion_questions (some (.obj [("personal_info", .obj [("name", .str "A")])]))
      (.ok "x") "2025-W1" = ⟨400, errObj "Missing required field: report"⟩ :=
  ⟨c5_missing_input_400.2.2.2.1 [("dob", .str "2015-06-07")] (.ok "x")
      (by rfl) ⟨"time_of_birth", by decide, by rfl⟩,
   c5_missing_input_400.2.1 ⟨"", .ok [], .ok [], .ok (.ok "")⟩ rfl,
   c5_missing_input_400.2.2.1 none (.ok "x") rfl,
   c5_missing_input_400.2.2.2.2.2 [("personal_info", .obj [("name", .str "A")])]
      (.ok "x") "2025-W1" (by rfl) (by rfl)⟩

/-- Refutation for claim C6: a request on which an internal exception is
raised and NOT caught. A PNG upload whose vision-model reply decodes to
`\x7b"subjects": [5]\x7d` makes the normalisation loop call `.get` on the
integer 5; the `AttributeError` escapes `extract_marksheet`, which has no
`try`/`except` around that loop. -/
theorem c6_uncaught_exception_counterexample :
    extract_marksheet (some ⟨"a.png", .error "not a spreadsheet", .error "not a pdf",
      .ok (.ok "\x7b\"subjects\": [5]\x7d")⟩) =
      .error "AttributeError: object has no attribute get" := by
  with_unfolding_all rfl

theorem checkFields_some_400 (fs : List String) (data : Json) (resp : HResponse)
    (h : checkFields fs data = .ok (some resp)) :
    ∃ msg, resp = ⟨400, errObj msg⟩ := by
  induction fs generalizing data with
  | nil => simp [checkFields] at h
  | cons f rest ih =>
    simp only [checkFields] at h
    cases hc : pyContains data f with
    | error e => rw [hc] at h; simp at h
    | ok b =>
      rw [hc] at h
      by_cases hb : b = true
      · subst hb
        simp only [if_true] at h
        exact ih data h
      · have : b = false := by simpa using hb
        subst this
        simp only [Bool.false_eq_true, if_false, Except.ok.injEq, Option.some.injEq] at h
        exact ⟨"Missing required field: " ++ f, h.symm⟩

theorem checkFields_resp_status (fs : List String) (data : Json) (resp : HResponse)
    (h : checkFields fs data = .ok (some resp)) : resp.status = 400 := by
  obtain ⟨msg, hm⟩ := checkFields_some_400 fs data resp h
  rw [hm]

theorem ragCore_status (data? : Option Json) (chain : Except String String) (r : HResponse)
    (h : ragCore data? chain = .ok r) : r.status = 200 ∨ r.status = 400 := by
  unfold ragCore at h
  dsimp only at h
  split at h
  · right
    simp only [Except.ok.injEq] at h
    rw [← h]
  · cases hcf : checkFields requiredRagFields (data?.getD Json.null) with
    | error e => rw [hcf] at h; exact Except.noConfusion h
    | ok o =>
      rw [hcf] at h
      cases o with
      | some resp =>
        right
        dsimp only at h
        simp only [Except.ok.injEq] at h
        rw [← h]
        exact checkFields_resp_status _ _ _ hcf
      | none =>
        dsimp only at h
        cases h1 : pyIndexJ (data?.getD Json.null) "dob" with
        | error e => rw [h1] at h; exact Except.noConfusion h
        | ok dob =>
          rw [h1] at h
          dsimp only at h
          cases h2 : pyIndexJ (data?.getD Json.null) "time_of_birth" with
          | error e => rw [h2] at h; exact Except.noConfusion h
          | ok tob =>
            rw [h2] at h
            dsimp only at h
            cases h3 : pyIndexJ (data?.getD Json.null) "place_of_birth" with
            | error e => rw [h3] at h; exact Except.noConfusion h
            | ok pob =>
              rw [h3] at h
              dsimp only at h
              cases h4 : pyIndexJ (data?.getD Json.null) "symptom_keywords" with
              | error e => rw [h4] at h; exact Except.noConfusion h
              | ok sym =>
                rw [h4] at h
                dsimp only at h
                cases h5 : pyGetDJ (data?.getD Json.null) "academic_records" (.arr []) with
                | error e => rw [h5] at h; exact Except.noConfusion h
                | ok academic =>
                  rw [h5] at h
                  dsimp only at h
                  cases h6 : buildAcademicSummary academic with
                  | error e => rw [h6] at h; exact Except.noConfusion h
                  | ok asum =>
                    rw [h6] at h
                    dsimp only at h
                    cases h7 : pyJoinComma (symptomsOf sym) with
                    | error e => rw [h7] at h; exact Except.noConfusion h
                    | ok symJoined =>
                      rw [h7] at h
                      dsimp only at h
                      cases chain with
                      | error e => exact Except.noConfusion h
                      | ok fullAnswer =>
                        left
                        dsimp only at h
                        simp only [Except.ok.injEq] at h
                        rw [← h]

theorem dqCore_status (data? : Option Json) (chain : Except String String) (wk : String)
    (r : HResponse) (h : dqCore data? chain wk = .ok r) : r.status = 200 ∨ r.status = 400 := by
  unfold dqCore at h
  dsimp only at h
  split at h
  · right
    simp only [Except.ok.injEq] at h
    rw [← h]
  · cases h1 : pyGetDJ (data?.getD Json.null) "report" (.obj []) with
    | error e => rw [h1] at h; exact Except.noConfusion h
    | ok report =>
      rw [h1] at h
      dsimp only at h
      cases h2 : pyGetDJ (data?.getD Json.null) "personal_info" (.obj []) with
      | error e => rw [h2] at h; exact Except.noConfusion h
      | ok pinfo =>
        rw [h2] at h
        dsimp only at h
        split at h
        · right
          simp only [Except.ok.injEq] at h
          rw [← h]
        · cases h3 : generate_discussion_questions report pinfo chain with
          | error e => rw [h3] at h; exact Except.noConfusion h
          | ok qs =>
            rw [h3] at h
            left
            dsimp only at h
            simp only [Except.ok.injEq] at h
            rw [← h]

theorem discussionCore_status (lead defAnswer : String) (extQs : List String)
    (data? : Option Json) (chain : Except String String) (r : HResponse)
    (h : discussionCore lead defAnswer extQs data? chain = .ok r) : r.status = 200 := by
  unfold discussionCore at h
  dsimp only at h
  cases h1 : pyGetDJ (data?.getD Json.null) "question" (.str "") with
  | error e => rw [h1] at h; exact Except.noConfusion h
  | ok question =>
    rw [h1] at h
    dsimp only at h
    cases h2 : pyGetDJ (data?.getD Json.null) "report" (.obj []) with
    | error e => rw [h2] at h; exact Except.noConfusion h
    | ok report =>
      rw [h2] at h
      dsimp only at h
      cases h3 : pyGetDJ (data?.getD Json.null) "personal_info" (.obj []) with
      | error e => rw [h3] at h; exact Except.noConfusion h
      | ok pinfo =>
        rw [h3] at h
        dsimp only at h
        cases h4 : pyGetDJ (data?.getD Json.null) "conversation_history" (.arr []) with
        | error e => rw [h4] at h; exact Except.noConfusion h
        | ok hist =>
          rw [h4] at h
          dsimp only at h
          cases h5 : buildHistoryContext hist with
          | error e => rw [h5] at h; exact Except.noConfusion h
          | ok hctx =>
            rw [h5] at h
            dsimp only at h
            cases h6 : buildDiscussionQuery lead question report pinfo hctx with
            | error e => rw [h6] at h; exact Except.noConfusion h
            | ok q =>
              rw [h6] at h
              dsimp only at h
              cases chain with
              | error e => exact Except.noConfusion h
              | ok reply =>
                dsimp only at h
                cases h7 : pySliceFirst3 (processReply reply defAnswer extQs).2 with
                | error e => rw [h7] at h; exact Except.noConfusion h
                | ok q3 =>
                  rw [h7] at h
                  dsimp only at h
                  cases h8 : padQuestions q3 with
                  | error e => rw [h8] at h; exact Except.noConfusion h
                  | ok qs =>
                    rw [h8] at h
                    dsimp only at h
                    simp only [Except.ok.injEq] at h
                    rw [← h]

/-- Claim C6 as amended: the spreadsheet branch of the extraction endpoint
and the report/discussion endpoints catch every internal exception (`/rag`
and `/discussion-questions` answer 200/400, or 500 with an error body; the
two conversational routes always answer 200), but exceptions raised in the
image/PDF branch of `extract_marksheet` (PDF conversion, the vision call, or
normalisation of the model reply) escape the handler uncaught. -/
theorem c6_exception_handling_amended :
    (∀ f : UploadedFile, isSpreadsheetName f.filename = true →
      ∃ r, extract_marksheet (some f) = .ok r) ∧
    (∀ (data? : Option Json) chain, (rag data? chain).status = 200 ∨
      (rag data? chain).status = 400 ∨ (rag data? chain).status = 500) ∧
    (∀ (data? : Option Json) chain, (rag data? chain).status = 500 →
      objGet (rag data? chain).body "error" = some (.str "Failed to generate report")) ∧
    (∀ (data? : Option Json) chain wk, (discussion_questions data? chain wk).status = 200 ∨
      (discussion_questions data? chain wk).status = 400 ∨
      (discussion_questions data? chain wk).status = 500) ∧
    (∀ (data? : Option Json) chain wk, (discussion_questions data? chain wk).status = 500 →
      objGet (discussion_questions data? chain wk).body "error" =
        some (.str "Failed to generate discussion questions")) ∧
    (∀ (data? : Option Json) chain, (discussion_followup data? chain).status = 200) ∧
    (∀ (data? : Option Json) chain, (discussion_free data? chain).status = 200) := by
  refine ⟨?_, ?_, ?_, ?_, ?_, ?_, ?_⟩
  · intro f hsp
    by_cases hf : f.filename = ""
    · exact ⟨⟨400, errObj "No file selected"⟩, by simp [extract_marksheet, hf]⟩
    · exact ⟨⟨200, .obj [("filename", .str f.filename), ("pages_processed", .num 1),
        ("results", .arr [.obj [("page", .num 1),
          ("data", extract_data_from_excel f.excelData)]])]⟩,
        by simp [extract_marksheet, hf, hsp]⟩
  · intro data? chain
    unfold rag
    cases hrc : ragCore data? chain with
    | ok r' =>
      dsimp only
      rcases ragCore_status data? chain r' hrc with h | h
      · left; exact h
      · right; left; exact h
    | error e => right; right; rfl
  · intro data? chain h500
    unfold rag at h500 ⊢
    cases hrc : ragCore data? chain with
    | ok r' =>
      rw [hrc] at h500
      dsimp only at h500
      rcases ragCore_status data? chain r' hrc with h | h <;> omega
    | error e => rfl
  · intro data? chain wk
    unfold discussion_questions
    cases hrc : dqCore data? chain wk with
    | ok r' =>
      dsimp only
      rcases dqCore_status data? chain wk r' hrc with h | h
      · left; exact h
      · right; left; exact h
    | error e => right; right; rfl
  · intro data? chain wk h500
    unfold discussion_questions at h500 ⊢
    cases hrc : dqCore data? chain wk with
    | ok r' =>
      rw [hrc] at h500
      dsimp only at h500
      rcases dqCore_status data? chain wk r' hrc with h | h <;> omega
    | error e => rfl
  · intro data? chain
    unfold discussion_followup
    cases hrc : discussionCore "The child was asked this question"
        "That's really interesting! 😊 I'd love to hear more about that."
        ["Can you tell me more about that?", "What made you feel that way?",
         "How would you like to build on this strength?"] data? chain with
    | ok r' => exact discussionCore_status _ _ _ _ _ _ hrc
    | error e => rfl
  · intro data? chain
    unfold discussion_free
    cases hrc : discussionCore "The child asked"
        "That's a great question! 😊 Let's explore that together."
        ["Can you tell me more about what you're thinking?", "What made you curious about this?",
         "How do you feel about this topic?"] data? chain with
    | ok r' => exact discussionCore_status _ _ _ _ _ _ hrc
    | error e => rfl

theorem c6_exception_handling_amended_witness :
    (∃ r, extract_marksheet (some ⟨"m.csv", .ok [], .error "x", .error "y"⟩) = .ok r) ∧
    objGet (rag (some (.obj [("dob", .str "2015-06-07"), ("time_of_birth", .str "09:00"),
        ("place_of_birth", .str "Delhi"), ("symptom_keywords", .arr [])]))
      (.error "boom")).body "error" = some (.str "Failed to generate report") ∧
    objGet (discussion_questions (some (.obj [("report", .num 1)])) (.ok "") "2025-W1").body
      "error" = some (.str "Failed to generate discussion questions") ∧
    (discussion_followup none (.ok "")).status = 200 :=
  ⟨c6_exception_handling_amended.1 ⟨"m.csv", .ok [], .error "x", .error "y"⟩ (by rfl),
   c6_exception_handling_amended.2.2.1
     (some (.obj [("dob", .str "2015-06-07"), ("time_of_birth", .str "09:00"),
       ("place_of_birth", .str "Delhi"), ("symptom_keywords", .arr [])]))
     (.error "boom") (by with_unfolding_all rfl),
   c6_exception_handling_amended.2.2.2.2.1 (some (.obj [("report", .num 1)])) (.ok "")
     "2025-W1" (by with_unfolding_all rfl),
   c6_exception_handling_amended.2.2.2.2.2.1 none (.ok "")⟩

/-- Claim C4 at its failing input: a model reply whose JSON has the
"questions" field as a string. `questions[:3]` slices the string to its
first three characters, so `/discussion-followup` answers 200 with
`questions` equal to the 3-character string "abc" instead of three
follow-up questions, despite the source comment "Ensure we have exactly 3
questions". -/
theorem c4_string_questions_failing_input :
    discussion_followup (some (.obj [("question", .str "hi")]))
      (.ok "\x7b\"answer\": \"ok\", \"questions\": \"abcdefghij\"\x7d") =
      ⟨200, .obj [("answer", .str "ok"), ("questions", .str "abc")]⟩ := by
  with_unfolding_all rfl
